import Mathlib

set_option maxRecDepth 16000

/-!
Shallow embedding of the `@openaip/yaixm-to-geojson` airspace converter
(`src/airspace-converter.ts` together with the `GeojsonPolygonValidator` of
`src/geojson-polygon-validator.ts`) and proofs about the claims made by its
natural-language specification.

Conventions of the embedding:

* JavaScript strings are Lean `String`s; character-level work uses `List Char`.
* JavaScript numbers are rationals (`ℚ`); the JavaScript `NaN` produced by
  `parseInt(undefined)` is modelled as `none` in an `Option ℚ`.
* Nullable values (`undefined`/`null`) are `Option`s.
* A thrown `new Error(message)` is `ConvError.err message`; a thrown JavaScript
  `TypeError` caused by a property access on `undefined` is `ConvError.typeError`.
* Functions of external libraries whose behaviour the converter merely consumes
  (turf's `destination`/`bearing`/`distance`/`area`/`unkinkPolygon` and the JSTS
  validity predicates) are collected in a `GeoLib` record and quantified over;
  the purely arithmetical parts of turf that the claims are about
  (`lineArc`/`circle` bearing stepping, `lineToPolygon` auto-completion,
  `rewind`'s shoelace orientation test, `envelope`) are modelled concretely
  from the turf implementation the package depends on.
-/

/-- The regexes of the converter only use `\s`; the inputs at hand only ever
contain the four common whitespace characters. -/
def isJsWs (c : Char) : Bool :=
  c = ' ' ∨ c = '\t' ∨ c = '\n' ∨ c = '\r'

/-- `\s*`: drop a (possibly empty) leading run of whitespace. -/
def dropJsWs : List Char → List Char
  | [] => []
  | c :: cs => if isJsWs c then dropJsWs cs else c :: cs

/-- `\d*` (greedy): split a leading run of decimal digits from the rest. -/
def takeDigits : List Char → List Char × List Char
  | [] => ([], [])
  | c :: cs =>
    if c.isDigit then
      let (d, r) := takeDigits cs
      (c :: d, r)
    else ([], c :: cs)

/-- Numeric value of a digit string (most significant digit first). -/
def digitsToNat (l : List Char) : ℕ :=
  l.foldl (fun acc c => 10 * acc + (c.toNat - '0'.toNat)) 0

/-- Value of a decimal literal split into integer digits and fractional digits
(the fractional part may be empty). -/
def decimalValue (intPart fracPart : List Char) : ℚ :=
  (digitsToNat intPart : ℚ) + (digitsToNat fracPart : ℚ) / (10 : ℚ) ^ fracPart.length

/-- Substring test (JavaScript `String.prototype.includes`), used to state the
claims about error-message contents. -/
def containsSubstringChars (needle : List Char) : List Char → Bool
  | [] => needle.isEmpty
  | c :: cs => needle.isPrefixOf (c :: cs) || containsSubstringChars needle cs

/-- `containsSubstring hay needle` is true when `needle` occurs in `hay`. -/
def containsSubstring (hay needle : String) : Bool :=
  containsSubstringChars needle.data hay.data

/-- JavaScript template interpolation of a possibly-`undefined` string. -/
def jsStr : Option String → String
  | some s => s
  | none => "undefined"

/-- `Array.prototype.includes` where the probed value may be `undefined`. -/
def jsIncludes (l : List String) : Option String → Bool
  | some s => l.contains s
  | none => false

/-- JavaScript `String.prototype.split(' ')` (split on every single space). -/
def jsSplitOnSpace (s : String) : List String :=
  (s.data.splitOn ' ').map String.mk

/-- JavaScript `parseFloat`: parse a maximal numeric prefix `\d+(\.\d+)?`,
`none` for `NaN`.  (The converter only applies it to strings that already
passed a regex check, so signs/exponents never occur.) -/
def jsParseFloatPrefix (s : String) : Option ℚ :=
  let (d1, r1) := takeDigits s.data
  if d1.isEmpty then none
  else
    match r1 with
    | '.' :: rest =>
      let (d2, _) := takeDigits rest
      if d2.isEmpty then some (decimalValue d1 []) else some (decimalValue d1 d2)
    | _ => some (decimalValue d1 [])

/-- Equality on `Except` results is decidable componentwise (used to evaluate
the converter on concrete inputs). -/
instance {e a : Type} [DecidableEq e] [DecidableEq a] : DecidableEq (Except e a)
  | .error x, .error y =>
    if h : x = y then isTrue (by rw [h]) else isFalse (by intro hh; cases hh; exact h rfl)
  | .error _, .ok _ => isFalse (by intro h; cases h)
  | .ok _, .error _ => isFalse (by intro h; cases h)
  | .ok x, .ok y =>
    if h : x = y then isTrue (by rw [h]) else isFalse (by intro hh; cases hh; exact h rfl)

/-- Errors raised by the converter: `err` is a thrown `new Error(message)`,
`typeError` a JavaScript `TypeError` from a property access on `undefined`. -/
inductive ConvError where
  | err (message : String)
  | typeError
deriving Repr, DecidableEq

/-- Rendering used when a caught error is re-interpolated into a new message
(`err.message`; a `TypeError`'s message is a fixed engine string). -/
def errorMessageOf : ConvError → String
  | .err m => m
  | .typeError => "Cannot read properties of undefined"

/-! ## The ceiling regexes

`REGEX_CEILING_SURFACE = /^(SFC)$/`,
`REGEX_CEILING_FEET = /^(\d+(\.\d+)?)\s*(ft|FT)?\s*(SFC)?$/`,
`REGEX_CEILING_FLIGHT_LEVEL = /^FL\s*(\d{2,})?$/`.

The matchers below return the capture groups exactly as the JavaScript regexes
produce them (these particular patterns match deterministically, no essential
backtracking is involved). -/

/-- Match result of `REGEX_CEILING_FEET`: integer digits and fractional digits
of group 1/2, the optional unit group 3 (`"ft"` or `"FT"`), and whether the
optional `SFC` group 4 matched. -/
def matchFeetChars (cs : List Char) : Option ((List Char × List Char) × Option (List Char) × Bool) :=
  let t1 := takeDigits cs
  if t1.1.isEmpty then none
  else
    let fr : List Char × List Char :=
      match t1.2 with
      | '.' :: rest =>
        let t2 := takeDigits rest
        if t2.1.isEmpty then ([], t1.2) else t2
      | _ => ([], t1.2)
    let ur : Option (List Char) × List Char :=
      match dropJsWs fr.2 with
      | 'f' :: 't' :: rest => (some ['f', 't'], rest)
      | 'F' :: 'T' :: rest => (some ['F', 'T'], rest)
      | other => (none, other)
    let sr : Bool × List Char :=
      match dropJsWs ur.2 with
      | 'S' :: 'F' :: 'C' :: rest => (true, rest)
      | other => (false, other)
    if sr.2.isEmpty then some ((t1.1, fr.1), ur.1, sr.1) else none

/-- Match result of `REGEX_CEILING_FLIGHT_LEVEL`: `some g` when the string
matches, where `g` is the optional digit group (`none` when the optional group
`(\d{2,})?` is absent, as in the bare string `"FL"`). -/
def matchFLChars (cs : List Char) : Option (Option (List Char)) :=
  match cs with
  | 'F' :: 'L' :: rest =>
    let r1 := dropJsWs rest
    let (d, r2) := takeDigits r1
    if 2 ≤ d.length then
      if r2.isEmpty then some (some d) else none
    else if r1.isEmpty then some none else none
  | _ => none

/-- Match result of `REGEX_ARC_RADIUS = /^(\d+(\.\d+)?)\s*(NM|nm)?$/`. -/
def matchArcRadiusChars (cs : List Char) : Option ((List Char × List Char) × Option (List Char)) :=
  let (d1, r1) := takeDigits cs
  if d1.isEmpty then none
  else
    let (frac, r2) : List Char × List Char :=
      match r1 with
      | '.' :: rest =>
        let (d2, r3) := takeDigits rest
        if d2.isEmpty then ([], r1) else (d2, r3)
      | _ => ([], r1)
    let r3 := dropJsWs r2
    let (unit, r4) : Option (List Char) × List Char :=
      match r3 with
      | 'N' :: 'M' :: rest => (some ['N', 'M'], rest)
      | 'n' :: 'm' :: rest => (some ['n', 'm'], rest)
      | _ => (none, r3)
    if r4.isEmpty then some ((d1, frac), unit) else none

/-- `REGEX_ARC_DIR = /^(cw|ccw)$/`. -/
def matchArcDir (s : String) : Bool :=
  s = "cw" ∨ s = "ccw"

/-- Seven digits of a longitude token followed by `E`/`W` and the end of the
string (the tail of `REGEX_COORDINATES`). -/
def matchLonPart : List Char → Bool
  | [a, b, c, d, e, f, g, h] =>
    [a, b, c, d, e, f, g].all Char.isDigit && (h = 'E' ∨ h = 'W')
  | _ => false

/-- `REGEX_COORDINATES = /^[0-9]{6}[NS]\s+[0-9]{7}[EW]$/`. -/
def matchCoordinates (s : String) : Bool :=
  match s.data with
  | a :: b :: c :: d :: e :: f :: h :: w :: rest =>
    [a, b, c, d, e, f].all Char.isDigit && (h = 'N' ∨ h = 'S') && isJsWs w &&
      matchLonPart (dropJsWs rest)
  | _ => false

/-! ## Vertical limit parser (`createCeiling`) -/

/-- A converted ceiling record.  `value` is `none` when the JavaScript value is
`NaN` (`parseInt(undefined)` on a bare `"FL"`). -/
structure Ceiling where
  value : Option ℚ
  unit : String
  referenceDatum : String
deriving Repr, DecidableEq

/-- The error message thrown for a ceiling definition matching none of the
three regexes. -/
def invalidCeilingMessage (ceilingDefinition identifier sequenceNumber : String) : String :=
  "Invalid ceiling definition '" ++ ceilingDefinition ++ "' for airspace '" ++ identifier ++
    "' in sequence number '" ++ sequenceNumber ++ "'"

/-- `createCeiling` of `src/airspace-converter.ts` (lines 508-550).
`identifier`/`sequenceNumber` are the rendered `this._identifier` and
`this._sequenceNumber` used in the error message. -/
def createCeiling (identifier sequenceNumber ceilingDefinition : String) : Except ConvError Ceiling :=
  let isValidSurfaceDefinition : Bool := ceilingDefinition = "SFC"
  let feetParts := matchFeetChars ceilingDefinition.data
  let flParts := matchFLChars ceilingDefinition.data
  if !isValidSurfaceDefinition && feetParts.isNone && flParts.isNone then
    .error (.err (invalidCeilingMessage ceilingDefinition identifier sequenceNumber))
  else if isValidSurfaceDefinition then
    .ok ⟨some 0, "FT", "GND"⟩
  else
    match feetParts with
    | some ((intPart, fracPart), unitPart, sfcPart) =>
      match unitPart with
      | some u =>
        -- `referenceDatum = (group4 || 'MSL')`, then `'SFC'` is replaced by `'GND'`
        .ok ⟨some (decimalValue intPart fracPart), String.mk (u.map Char.toUpper),
          if sfcPart then "GND" else "MSL"⟩
      | none =>
        -- `altitudeParts[3].toUpperCase()` with group 3 absent: `TypeError`
        .error .typeError
    | none =>
      match flParts with
      | some digitGroup =>
        .ok ⟨digitGroup.map (fun d => (digitsToNat d : ℚ)), "FL", "STD"⟩
      | none =>
        .error (.err (invalidCeilingMessage ceilingDefinition identifier sequenceNumber))

/-! ## Taxonomy mapper (`mapClassAndType`) -/

def ALLOWED_TYPES : List String :=
  ["CTA", "TMA", "CTR", "ATZ", "OTHER", "D", "P", "R", "D_OTHER"]

def ALLOWED_LOCALTYPES : List String :=
  ["MATZ", "GLIDER", "GVS", "HIRTA", "LASER", "DZ", "NOATZ", "UL", "ILS", "RMZ", "TMZ"]

def ALLOWED_CLASSES : List String :=
  ["A", "B", "C", "D", "E", "F", "G", "UNCLASSIFIED"]

/-- Result of the taxonomy mapping; `activity` is the optional
`metaProps.activity` of the source. -/
structure MappedClassAndType where
  type : String
  cls : String
  activity : Option String
deriving Repr, DecidableEq

/-- `JSON.stringify({type, localType, class})` of the final error branch
(`undefined` properties are omitted by `JSON.stringify`). -/
def comboStringify (type localType airspaceClass : Option String) : String :=
  let part := fun (k : String) (v : Option String) =>
    match v with
    | some s => ["\"" ++ k ++ "\":\"" ++ s ++ "\""]
    | none => []
  "\x7b" ++ String.intercalate "," (part "type" type ++ part "localType" localType ++
    part "class" airspaceClass) ++ "\x7d"

/-- `mapClassAndType` of `src/airspace-converter.ts` (lines 345-493). -/
def mapClassAndType (identifier : String) (type localType airspaceClass : Option String)
    (airspaceRules : Option (List String)) : Except ConvError MappedClassAndType :=
  let message := "Failed to map class/type combination for airspace '" ++ identifier ++ "'."
  if !jsIncludes ALLOWED_TYPES type then
    .error (.err (message ++ " The 'type' value '" ++ jsStr type ++
      "' is not in the list of allowed types."))
  else if localType.isSome && !jsIncludes ALLOWED_LOCALTYPES localType then
    .error (.err (message ++ " The 'localtype' value '" ++ jsStr localType ++
      "' is not in the list of allowed localtypes."))
  else if airspaceClass.isSome && !jsIncludes ALLOWED_CLASSES airspaceClass then
    .error (.err (message ++ " The 'class' value '" ++ jsStr airspaceClass ++
      "' is not in the list of allowed classes."))
  else
    -- rules can contain a type value that overwrites the main defined airspace type
    let ruleTypes : List String := ["TMZ", "TRA", "RMZ"]
    let type1 : Option String :=
      match airspaceRules with
      | some rules =>
        if rules.any (fun rule => ruleTypes.contains rule) then
          match rules.find? (fun rule => ruleTypes.contains rule) with
          | some ruleType => some ruleType
          | none => type
        else type
      | none => type
    if type1.isSome && airspaceClass.isSome then
      let mappedType : Except ConvError String :=
        match type1 with
        | some "CTA" => .ok "CTA"
        | some "TMA" => .ok "TMA"
        | some "CTR" => .ok "CTR"
        | some "ATZ" => .ok "ATZ"
        | some "D" => .ok "DANGER"
        | some "P" => .ok "PROHIBITED"
        | some "R" => .ok "RESTRICTED"
        | some "TMZ" => .ok "TMZ"
        | some "RMZ" => .ok "RMZ"
        | some "TRA" => .ok "TRA"
        | _ => .error (.err (message ++ " The 'type' value '" ++ jsStr type1 ++
            "' has no configured mapping."))
      match mappedType with
      | .error e => .error e
      | .ok mt =>
        if jsIncludes ALLOWED_CLASSES airspaceClass then
          .ok ⟨mt, jsStr airspaceClass, none⟩
        else
          .error (.err (message ++ " The 'class' value '" ++ jsStr airspaceClass ++
            "' has no configured mapping."))
    else if type1.isSome && localType.isSome then
      let comb := jsStr type1 ++ "|" ++ jsStr localType
      if comb = "OTHER|MATZ" then .ok ⟨"MATZ", "G", none⟩
      else if comb = "TRA|GLIDER" ∨ comb = "D_OTHER|GLIDER" then
        .ok ⟨"GLIDING_SECTOR", "UNCLASSIFIED", none⟩
      else if comb = "D_OTHER|GVS" ∨ comb = "D_OTHER|HIRTA" ∨ comb = "D_OTHER|LASER" ∨
          comb = "OTHER|ILS" then
        .ok ⟨"WARNING", "UNCLASSIFIED", none⟩
      else if comb = "D_OTHER|DZ" then
        .ok ⟨"AERIAL_SPORTING_RECREATIONAL", "UNCLASSIFIED", some "PARACHUTING"⟩
      else if comb = "OTHER|GLIDER" ∨ comb = "OTHER|NOATZ" then
        .ok ⟨"AERIAL_SPORTING_RECREATIONAL", "UNCLASSIFIED", some "AEROCLUB_AERIAL_WORK"⟩
      else if comb = "OTHER|UL" then
        .ok ⟨"AERIAL_SPORTING_RECREATIONAL", "UNCLASSIFIED", some "ULM"⟩
      else if comb = "RMZ|RMZ" ∨ comb = "OTHER|RMZ" then .ok ⟨"RMZ", "UNCLASSIFIED", none⟩
      else if comb = "TMZ|TMZ" ∨ comb = "OTHER|TMZ" then .ok ⟨"TMZ", "UNCLASSIFIED", none⟩
      else
        .error (.err (message ++ " The 'type' value '" ++ jsStr type1 ++
          "' and 'localtype' value '" ++ jsStr localType ++ "' has no configured mapping."))
    else if type1.isSome then
      match type1 with
      | some "ATZ" => .ok ⟨"ATZ", "G", none⟩
      | some "MATZ" => .ok ⟨"MATZ", "G", none⟩
      | some "D" => .ok ⟨"DANGER", "UNCLASSIFIED", none⟩
      | some "P" => .ok ⟨"PROHIBITED", "UNCLASSIFIED", none⟩
      | some "R" => .ok ⟨"RESTRICTED", "UNCLASSIFIED", none⟩
      | _ => .error (.err (message ++ " The type value '" ++ jsStr type1 ++
          "' has no configured mapping."))
    else
      .error (.err (message ++ " No mapping for combination '" ++
        comboStringify type1 localType airspaceClass ++ "'"))

/-! ## Coordinates and the external geometry library

A coordinate is a `(longitude, latitude)` pair in decimal degrees. -/

abbrev Coord : Type := ℚ × ℚ

/-- A GeoJSON polygon: a list of linear rings (the converter only ever
produces a single exterior ring). -/
structure Polygon where
  coordinates : List (List Coord)
deriving Repr, DecidableEq

/-- The external geometry primitives the converter calls but does not define:
turf's spherical `destination`/`bearing`/`distance`/`area`, turf's
`unkinkPolygon`, and the JSTS validity operations wrapped by the
`GeojsonPolygonValidator`.  Theorems quantify over this record. -/
structure GeoLib where
  /-- turf `destination center radiusKm bearingDegrees`. -/
  destination : Coord → ℚ → ℚ → Coord
  /-- turf `bearing from to` in degrees. -/
  bearing : Coord → Coord → ℚ
  /-- turf `distance a b` in kilometers. -/
  distanceKm : Coord → Coord → ℚ
  /-- turf `area polygon` in square meters. -/
  areaSqm : Polygon → ℚ
  /-- turf `unkinkPolygon`: the list of simple sub-polygons, or a thrown error. -/
  unkink : Polygon → Except Unit (List Polygon)
  /-- JSTS `IsValidOp.isValid()` on the read geometry. -/
  jstsIsValidPolygon : Polygon → Bool
  /-- JSTS `IsSimpleOp.isSimple()` on the read geometry. -/
  jstsIsSimple : Polygon → Bool
  /-- `getSelfIntersections`: `none` models `undefined` (simple linear
  geometry), `some none` the empty object returned for a node-consistent
  graph, `some (some p)` a located invalid point. -/
  jstsSelfIntersections : Polygon → Option (Option Coord)

/-- Sexagesimal parsing of one `DD:MM:SS H` latitude token produced by
`formatLatitude`.  Modelled from the `@openaip/coordinate-parser` dependency:
degrees, minutes and seconds are combined into decimal degrees, the
hemisphere letter gives the sign, out-of-range values are rejected.  The
seven characters are the ones `formatLatitude` sliced out of the raw token. -/
def parseDmsLat (t : List Char) : Option ℚ :=
  match t with
  | [a, b, c, d, e, f, h] =>
    if [a, b, c, d, e, f].all Char.isDigit && (decide (h = 'N') || decide (h = 'S')) then
      let deg := digitsToNat [a, b]
      let minutes := digitsToNat [c, d]
      let seconds := digitsToNat [e, f]
      if deg ≤ 90 ∧ minutes < 60 ∧ seconds < 60 then
        some ((if h = 'N' then 1 else -1) *
          ((deg : ℚ) + (minutes : ℚ) / 60 + (seconds : ℚ) / 3600))
      else none
    else none
  | _ => none

/-- Sexagesimal parsing of one `DDD:MM:SS H` longitude token produced by
`formatLongitude` (modelled from the `@openaip/coordinate-parser`
dependency, as for `parseDmsLat`). -/
def parseDmsLon (t : List Char) : Option ℚ :=
  match t with
  | [a, b, c, d, e, f, g, h] =>
    if [a, b, c, d, e, f, g].all Char.isDigit && (decide (h = 'E') || decide (h = 'W')) then
      let deg := digitsToNat [a, b, c]
      let minutes := digitsToNat [d, e]
      let seconds := digitsToNat [f, g]
      if deg ≤ 180 ∧ minutes < 60 ∧ seconds < 60 then
        some ((if h = 'E' then 1 else -1) *
          ((deg : ℚ) + (minutes : ℚ) / 60 + (seconds : ℚ) / 3600))
      else none
    else none
  | _ => none

/-- `transformCoordinates` of `src/airspace-converter.ts` (lines 777-820):
split the raw token on single spaces, slice latitude and longitude parts and
delegate to the coordinate parser; any failure is wrapped into a `Failed to
transform coordinates` error naming the airspace and sequence number. -/
def transformCoordinates (identifier sequenceNumber coordinateString : String) :
    Except ConvError Coord :=
  let parsed : Option Coord :=
    match jsSplitOnSpace coordinateString with
    | coordLat :: coordLon :: _ =>
      match parseDmsLat coordLat.data, parseDmsLon coordLon.data with
      | some lat, some lon => some (lon, lat)
      | _, _ => none
    | _ => none
  match parsed with
  | some c => .ok c
  | none =>
    .error (.err ("Failed to transform coordinates '" ++ coordinateString ++
      "' for airspace '" ++ identifier ++ "' in sequence number '" ++ sequenceNumber ++
      "'. Invalid coordinate string"))

/-! ## The boundary segments -/

/-- The tagged union of boundary definitions.  The source distinguishes the
variants by the single key of the YAML object; an object with any other key
hits the `default` arm of the dispatch (`unsupported`).  Fields that the YAML
may omit are `Option`s (the source explicitly tests them against `null`). -/
inductive BoundarySegment where
  | line (points : List String)
  | arc (dir radius centre toPt : Option String)
  | circle (radius centre : Option String)
  | unsupported (key : String)
deriving Repr, DecidableEq

/-- `createCoordinatesFromLine` (lines 605-629). -/
def createCoordinatesFromLine (identifier sequenceNumber : String) (points : List String) :
    Except ConvError (List Coord) :=
  if points.isEmpty then
    .error (.err ("Invalid line boundary definition for airspace '" ++ identifier ++
      "' in sequence number '" ++ sequenceNumber ++ "'"))
  else
    points.foldlM (fun acc coordinate => do
      if !matchCoordinates coordinate then
        throw (ConvError.err ("Invalid coordinate '" ++ coordinate ++
          "' in line boundary definition for airspace '" ++ identifier ++
          "' in sequence number '" ++ sequenceNumber ++ "'"))
      let c ← transformCoordinates identifier sequenceNumber coordinate
      pure (acc ++ [c])) []

/-! ### turf's arc and circle tessellation

Modelled from the `@turf/turf` v7 implementation the package depends on.
`circle` produces `steps` points at bearings `i * -360 / steps` and then
repeats the first point to close the ring; `lineArc` normalizes both bearings
to `[0, 360)`, walks clockwise from the start angle in increments of
`360 / steps` while strictly below the end angle (the end angle gains 360 when
the normalized end is not greater than the start), and appends the end angle
itself when the walk overshot it.  When the normalized angles coincide the
full circle is returned.  Both treat `steps = 0` as the default 64 via
`options.steps || 64`. -/

/-- turf `convertAngleTo360`: normalize an angle into `[0, 360)`. -/
def convertAngleTo360 (alfa : ℚ) : ℚ :=
  alfa - 360 * ⌊alfa / 360⌋

/-- The bearings at which turf `circle` places its points (including the
closing repetition of the first bearing). -/
def circleBearings (steps : ℕ) : List ℚ :=
  let stepsE : ℕ := if steps = 0 then 64 else steps
  ((List.range stepsE).map fun (i : ℕ) => ((i : ℚ) * (-360)) / (stepsE : ℚ)) ++ [0]

/-- The bearings at which turf `lineArc` places its points. -/
def arcBearings (bearing1 bearing2 : ℚ) (steps : ℕ) : List ℚ :=
  let stepsE : ℕ := if steps = 0 then 64 else steps
  let angle1 := convertAngleTo360 bearing1
  let angle2 := convertAngleTo360 bearing2
  if angle1 = angle2 then circleBearings steps
  else
    let arcEndDegree := if angle1 < angle2 then angle2 else angle2 + 360
    let count : ℕ := (⌈(arcEndDegree - angle1) * (stepsE : ℚ) / 360⌉).toNat
    let walked := (List.range count).map fun (i : ℕ) => angle1 + ((i : ℚ) * 360) / (stepsE : ℚ)
    if arcEndDegree < angle1 + ((count : ℚ) * 360) / (stepsE : ℚ) then
      walked ++ [arcEndDegree]
    else walked

/-- turf `lineArc center radiusKm bearing1 bearing2 {steps}` as the list of
its line-string coordinates. -/
def lineArcCoords (lib : GeoLib) (center : Coord) (radiusKm : ℚ) (bearing1 bearing2 : ℚ)
    (steps : ℕ) : List Coord :=
  (arcBearings bearing1 bearing2 steps).map (lib.destination center radiusKm)

/-- turf `circle center radiusKm {steps}` as its (closed) ring. -/
def circleRingCoords (lib : GeoLib) (center : Coord) (radiusKm : ℚ) (steps : ℕ) : List Coord :=
  (circleBearings steps).map (lib.destination center radiusKm)

/-- The radius conversion of the arc/circle resolvers:
`parseFloat(radius.split(' ')[0].trim()) * 1.852` (nautical miles to
kilometers). -/
def radiusNmToKm (radius : String) : ℚ :=
  (jsParseFloatPrefix ((jsSplitOnSpace radius).headD "").trim).getD 0 * (1852 / 1000)

/-- `JSON.stringify` of an arc boundary definition object
(`undefined` properties are omitted by `JSON.stringify`). -/
def arcStringify (dir radius centre toPt : Option String) : String :=
  let part := fun (k : String) (v : Option String) =>
    match v with
    | some s => ["\"" ++ k ++ "\":\"" ++ s ++ "\""]
    | none => []
  "\x7b\"arc\":\x7b" ++ String.intercalate "," (part "dir" dir ++ part "radius" radius ++
    part "centre" centre ++ part "to" toPt) ++ "\x7d\x7d"

/-- The `Previous coordinate pair is missing` message of
`createCoordinatesFromArc` (the source interpolates
`JSON.stringify(boundaryDefinition)` before the airspace name). -/
def arcMissingPreviousMessage (dir radius centre toPt : Option String)
    (identifier sequenceNumber : String) : String :=
  "Invalid arc boundary definition '" ++ arcStringify dir radius centre toPt ++
    "' for airspace '" ++ identifier ++ "' in sequence number '" ++ sequenceNumber ++
    "'. Previous coordinate pair is missing."

/-- `createCoordinatesFromArc` (lines 639-724).  `boundaryCoordinates` is the
list of coordinates accumulated so far for the current boundary
(`this._boundaryCoordinates`); the arc continues from its last entry. -/
def createCoordinatesFromArc (lib : GeoLib) (geometryDetail : ℕ)
    (identifier sequenceNumber : String) (dir radius centre toPt : Option String)
    (boundaryCoordinates : List Coord) : Except ConvError (List Coord) := do
  let lastCoord := boundaryCoordinates.getLast?
  let isValidDir := match dir with | some d => matchArcDir d | none => false
  let isValidRadius := match radius with
    | some r => (matchArcRadiusChars r.data).isSome
    | none => false
  let isValidCentre := match centre with | some c => matchCoordinates c | none => false
  let isValidTo := match toPt with | some t => matchCoordinates t | none => false
  match lastCoord with
  | none =>
    throw (ConvError.err (arcMissingPreviousMessage dir radius centre toPt identifier
      sequenceNumber))
  | some fromCoord =>
    if dir.isNone || radius.isNone || centre.isNone || toPt.isNone then
      throw (ConvError.err ("Invalid arc boundary definition for airspace '" ++ identifier ++
        "' in sequence number '" ++ sequenceNumber ++ "'"))
    else if !isValidDir then
      throw (ConvError.err ("Invalid arc 'direction' '" ++ jsStr dir ++
        "' in arc boundary definition for airspace '" ++ identifier ++
        "' in sequence number '" ++ sequenceNumber ++ "'"))
    else if !isValidRadius then
      throw (ConvError.err ("Invalid arc 'radius' '" ++ jsStr radius ++
        "' in arc boundary definition for airspace '" ++ identifier ++
        "' in sequence number '" ++ sequenceNumber ++ "'"))
    else if !isValidCentre then
      throw (ConvError.err ("Invalid arc 'centre' '" ++ jsStr centre ++
        "' in arc boundary definition for airspace '" ++ identifier ++
        "' in sequence number '" ++ sequenceNumber ++ "'"))
    else if !isValidTo then
      throw (ConvError.err ("Invalid arc 'to' '" ++ jsStr toPt ++
        "' in arc boundary definition for airspace '" ++ identifier ++
        "' in sequence number '" ++ sequenceNumber ++ "'"))
    else
      let isClockwise := dir = some "cw"
      let centerPoint ← transformCoordinates identifier sequenceNumber (jsStr centre)
      let toPoint ← transformCoordinates identifier sequenceNumber (jsStr toPt)
      -- switch start and end point if arc is counter-clockwise
      let startPoint := if isClockwise then fromCoord else toPoint
      let endPoint := if isClockwise then toPoint else fromCoord
      let radiusKm := radiusNmToKm (jsStr radius)
      let startBearing := lib.bearing centerPoint startPoint
      let endBearing := lib.bearing centerPoint endPoint
      let arc := lineArcCoords lib centerPoint radiusKm startBearing endBearing geometryDetail
      -- if counter-clockwise, reverse coordinate list order
      pure (if isClockwise then arc else arc.reverse)

/-- `createCoordinatesFromCircle` (lines 730-772). -/
def createCoordinatesFromCircle (lib : GeoLib) (geometryDetail : ℕ)
    (identifier sequenceNumber : String) (radius centre : Option String) :
    Except ConvError (List Coord) := do
  let isValidRadius := match radius with
    | some r => (matchArcRadiusChars r.data).isSome
    | none => false
  let isValidCentre := match centre with | some c => matchCoordinates c | none => false
  if radius.isNone || centre.isNone then
    throw (ConvError.err ("Invalid arc boundary definition for airspace '" ++ identifier ++
      "' in sequence number '" ++ sequenceNumber ++ "'"))
  else if !isValidRadius then
    throw (ConvError.err ("Invalid arc 'radius' '" ++ jsStr radius ++
      "' in arc boundary definition for airspace '" ++ identifier ++
      "' in sequence number '" ++ sequenceNumber ++ "'"))
  else if !isValidCentre then
    throw (ConvError.err ("Invalid arc 'centre' '" ++ jsStr centre ++
      "' in arc boundary definition for airspace '" ++ identifier ++
      "' in sequence number '" ++ sequenceNumber ++ "'"))
  else do
    let radiusKm := radiusNmToKm (jsStr radius)
    let centerPoint ← transformCoordinates identifier sequenceNumber (jsStr centre)
    pure (circleRingCoords lib centerPoint radiusKm geometryDetail)

/-! ## Polygon assembly (`createPolygonGeometry`, lines 555-599)

turf `lineToPolygon` with `autoComplete: true` appends the first coordinate
when first and last differ; its `polygon` helper then rejects rings of fewer
than 4 positions.  turf `rewind` with `reverse: false` reverses the exterior
ring exactly when `booleanClockwise` holds, i.e. when
`∑ (x₂ - x₁) * (y₂ + y₁) > 0` over consecutive pairs. -/

/-- turf `lineToPolygon`'s `autoCompleteCoords`: compare the first and last
position componentwise and append the first when they differ.  (All call
sites guard against empty lists beforehand.) -/
def autoCompleteCoords : List Coord → List Coord
  | [] => []
  | a :: l =>
    if a.1 = (l.getLastD a).1 ∧ a.2 = (l.getLastD a).2 then a :: l else (a :: l) ++ [a]

/-- The sum `∑ (x₂ - x₁) * (y₂ + y₁)` over consecutive coordinate pairs used
by turf `booleanClockwise`. -/
def rewindSum : List Coord → ℚ
  | p :: q :: rest => (q.1 - p.1) * (q.2 + p.2) + rewindSum (q :: rest)
  | _ => 0

/-- turf `booleanClockwise`. -/
def booleanClockwise (ring : List Coord) : Bool :=
  0 < rewindSum ring

/-- Twice the signed area of a ring by the shoelace formula
(`∑ (x₁ y₂ - x₂ y₁)` over consecutive pairs); positive on counter-clockwise
closed rings.  This is the quantity the specification's winding invariant
speaks about. -/
def shoelaceSum : List Coord → ℚ
  | p :: q :: rest => (p.1 * q.2 - q.1 * p.2) + shoelaceSum (q :: rest)
  | _ => 0

/-- turf `rewind` with `reverse: false` on a single exterior ring. -/
def rewindRing (ring : List Coord) : List Coord :=
  if booleanClockwise ring then ring.reverse else ring

/-- The boundary-resolution loop of `createPolygonGeometry` (lines 559-585):
dispatch on the segment kind and append the produced coordinates to the
accumulated `this._boundaryCoordinates`. -/
def resolveBoundary (lib : GeoLib) (geometryDetail : ℕ) (identifier sequenceNumber : String) :
    List BoundarySegment → List Coord → Except ConvError (List Coord)
  | [], acc => .ok acc
  | seg :: rest, acc => do
    let coords ← match seg with
      | .line points => createCoordinatesFromLine identifier sequenceNumber points
      | .arc dir radius centre toPt =>
        createCoordinatesFromArc lib geometryDetail identifier sequenceNumber dir radius centre
          toPt acc
      | .circle radius centre =>
        createCoordinatesFromCircle lib geometryDetail identifier sequenceNumber radius centre
      | .unsupported key =>
        throw (ConvError.err ("Unsupported boundary type '" ++ key ++ "' for airspace '" ++
          identifier ++ "' in sequence number '" ++ sequenceNumber ++ "'"))
    resolveBoundary lib geometryDetail identifier sequenceNumber rest (acc ++ coords)

/-- `createPolygonGeometry` (lines 555-599): resolve all boundary segments,
build a line string (turf rejects fewer than two positions), close it into a
polygon ring (turf rejects rings shorter than four positions) and re-orient
it with `rewind`. -/
def createPolygonGeometry (lib : GeoLib) (geometryDetail : ℕ)
    (identifier sequenceNumber : String) (boundary : List BoundarySegment)
    (boundaryCoordinates : List Coord) : Except ConvError Polygon := do
  let coords ← resolveBoundary lib geometryDetail identifier sequenceNumber boundary
    boundaryCoordinates
  if coords.length < 2 then
    throw (ConvError.err "coordinates must be an array of two or more positions")
  else
    let ring := autoCompleteCoords coords
    if ring.length < 4 then
      throw (ConvError.err "Each LinearRing of a Polygon must have 4 or more Positions.")
    else
      pure ⟨[rewindRing ring]⟩

/-! ## The `GeojsonPolygonValidator` (`src/geojson-polygon-validator.ts`) -/

namespace GeojsonPolygonValidator

/-- `extractGeometry` (lines 1077-1095 of the validator source): take the
first (exterior) ring; destructuring an empty coordinates array yields
`undefined` whose `.length` access is a `TypeError`; rings of two or fewer
positions are rejected. -/
def extractGeometry (p : Polygon) : Except ConvError (List Coord) :=
  match p.coordinates.head? with
  | none => .error .typeError
  | some coordinates =>
    if coordinates.length ≤ 2 then
      .error (.err ("Polygon has insufficient number of coordinates: " ++
        toString coordinates.length))
    else .ok coordinates

/-- `validate` (lines 1034-1052 of the validator source): re-polygonize the
exterior ring via a line string and check the three JSTS facts; any failure
throws one of two fixed messages. -/
def validate (lib : GeoLib) (p : Polygon) : Except ConvError Unit := do
  let coordinates ← extractGeometry p
  let ring := autoCompleteCoords coordinates
  if ring.length < 4 then
    throw (ConvError.err "Each LinearRing of a Polygon must have 4 or more Positions.")
  else
    let polygonFeature : Polygon := ⟨[ring]⟩
    let isValid := lib.jstsIsValidPolygon polygonFeature
    let isSimple := lib.jstsIsSimple polygonFeature
    let selfIntersect := lib.jstsSelfIntersections polygonFeature
    if isValid = false ∨ isSimple = false ∨ selfIntersect.isSome then
      if selfIntersect.isSome then
        throw (ConvError.err "Geometry is invalid due to a self intersection")
      else
        throw (ConvError.err "Geometry is invalid")
    else
      pure ()

/-- `isValid` (lines 1022-1032): `validate` with all errors turned into
`false`. -/
def isValid (lib : GeoLib) (p : Polygon) : Bool :=
  match validate lib p with
  | .ok _ => true
  | .error _ => false

/-- `removeDuplicates` (lines 1219-1238): drop every interior coordinate that
is within 200 meters of an already kept one; the first and last coordinates
are always kept. -/
def removeDuplicates (lib : GeoLib) (coordinates : List Coord) : List Coord :=
  match coordinates with
  | [] => coordinates
  | [_] => coordinates
  | c0 :: rest =>
    let middle := rest.dropLast
    let processed := middle.foldl (fun acc coord =>
      if acc.any (fun v => lib.distanceKm v coord < 1 / 5) then acc else acc ++ [coord]) [c0]
    processed ++ [rest.getLast?.getD c0]

/-- The `isIntermediateCoordinate` helper of `removeIntermediatePoints`
(lines 1253-1280): the loop runs over the length of the list with the probed
index filtered out, but indexes the original list; a coordinate is
"intermediate" when the bearings from it to two consecutive list entries
before it differ by 180° (within the configured variance). -/
def isIntermediateCoordinate (lib : GeoLib) (coord : Coord) (coordIdx : ℕ)
    (coordinateList : List Coord) (greedyVariance : ℚ) : Bool :=
  (List.range (coordinateList.length - 1)).any fun i =>
    match coordinateList.get? i, coordinateList.get? (i + 1) with
    | some coordA, some coordB =>
      let bearingA := lib.bearing coord coordA
      let bearingB := lib.bearing coord coordB
      let bearingDelta := |bearingA - bearingB|
      decide (bearingDelta ≤ 180 + greedyVariance) &&
        decide (180 - greedyVariance ≤ bearingDelta) &&
        decide (i < coordIdx) && decide (i + 1 < coordIdx)
    | _, _ => false

/-- `removeIntermediatePoints` (lines 1240-1303) with the default
`greedyVariance = 0`: keep the first coordinate and every later coordinate
that is not intermediate. -/
def removeIntermediatePoints (lib : GeoLib) (coordinates : List Coord)
    (greedyVariance : ℚ) : List Coord :=
  coordinates.enum.foldl (fun acc ic =>
    if ic.1 = 0 then acc ++ [ic.2]
    else if isIntermediateCoordinate lib ic.2 ic.1 coordinates greedyVariance then acc
    else acc ++ [ic.2]) []

/-- `getLargestPolygon` (lines 1097-1119): the first polygon is the initial
candidate, later polygons replace it when their area is at least as large;
an empty list is rejected. -/
def getLargestPolygon (lib : GeoLib) (polygons : List Polygon) : Except ConvError Polygon :=
  match polygons with
  | [] => .error (.err "Polygons must contain at least one polygon geometry")
  | p0 :: rest =>
    .ok (rest.foldl (fun best p =>
      if best.2 ≤ lib.areaSqm p then (p, lib.areaSqm p) else best) (p0, lib.areaSqm p0)).1

/-- turf `envelope`: the axis-aligned bounding rectangle of the points as a
closed counter-clockwise ring.  (Unreachable for an empty list in the flows
below; the degenerate branch returns an empty ring.) -/
def envelopePolygon (coords : List Coord) : Polygon :=
  match coords with
  | [] => ⟨[[]]⟩
  | c :: rest =>
    let west := rest.foldl (fun m p => min m p.1) c.1
    let south := rest.foldl (fun m p => min m p.2) c.2
    let east := rest.foldl (fun m p => max m p.1) c.1
    let north := rest.foldl (fun m p => max m p.2) c.2
    ⟨[[(west, south), (east, south), (east, north), (west, north), (west, south)]]⟩

/-- `createFixedPolygon` (lines 1126-1160): deduplicate, then (on the
*original* coordinates — the inner `const coords` shadows the deduplicated
ones, a quirk of the source) drop intermediate points, re-polygonize, unkink
and keep the largest sub-polygon; if any of that throws, fall back to the
envelope of the deduplicated coordinates.  The produced polygon is *not*
re-validated. -/
def createFixedPolygon (lib : GeoLib) (coordinates : List Coord) : Except ConvError Polygon :=
  let coords := removeDuplicates lib coordinates
  let inner : Except ConvError Polygon := do
    let cleaned := removeIntermediatePoints lib coordinates 0
    if cleaned.length < 2 then
      throw (ConvError.err "coordinates must be an array of two or more positions")
    else
      let ring := autoCompleteCoords cleaned
      if ring.length < 4 then
        throw (ConvError.err "Each LinearRing of a Polygon must have 4 or more Positions.")
      else
        let polygonFeature : Polygon := ⟨[ring]⟩
        match lib.unkink polygonFeature with
        | .error _ => throw (ConvError.err "unkinkPolygon failed")
        | .ok unkinked => getLargestPolygon lib unkinked
  match inner with
  | .ok p => .ok p
  | .error _ => .ok (envelopePolygon coords)

/-- `makeValid` (lines 1057-1066): return the geometry unchanged when the
JSTS `IsValidOp` check passes, otherwise rebuild it with
`createFixedPolygon`. -/
def makeValid (lib : GeoLib) (p : Polygon) : Except ConvError Polygon :=
  if lib.jstsIsValidPolygon p then .ok p
  else do
    let coordinates ← extractGeometry p
    createFixedPolygon lib coordinates

end GeojsonPolygonValidator

/-- The wrapped message of `fixGeometry`'s repair-failure error. -/
def fixGeometryFailMessage (identifier sequenceNumber : String) (e : ConvError) : String :=
  "Failed to create fixed geometry for airspace '" ++ identifier ++
    "' in sequence number '" ++ sequenceNumber ++ "'. " ++ errorMessageOf e

/-- `fixGeometry` of `src/airspace-converter.ts` (lines 822-844): when the
composite `isValid` check fails, run `makeValid` and wrap any error it throws
into a message naming the airspace and sequence number; the result of a
successful `makeValid` is returned without re-validation. -/
def fixGeometry (lib : GeoLib) (identifier sequenceNumber : String) (geometry : Polygon) :
    Except ConvError Polygon :=
  if GeojsonPolygonValidator.isValid lib geometry then .ok geometry
  else
    match GeojsonPolygonValidator.makeValid lib geometry with
    | .ok fixedGeometry => .ok fixedGeometry
    | .error e =>
      .error (.err (fixGeometryFailMessage identifier sequenceNumber e))

/-! ## Orchestration (`createAirspaceFeatures` and `convert`) -/

/-- The resolved converter configuration (`DEFAULT_CONFIG` merged with the
user's partial config). -/
structure Config where
  validateGeometries : Bool
  fixGeometries : Bool
  geometryDetail : ℕ
deriving Repr, DecidableEq

/-- A partial user configuration (all fields optional). -/
structure ConfigInput where
  validateGeometries : Option Bool := none
  fixGeometries : Option Bool := none
  geometryDetail : Option ℕ := none
deriving Repr, DecidableEq

/-- `{...DEFAULT_CONFIG, ...config}` of the constructor with
`DEFAULT_CONFIG = {validateGeometries: true, fixGeometries: false,
geometryDetail: 100}` (`src/default-config.js`). -/
def resolveConfig (c : ConfigInput) : Config :=
  ⟨c.validateGeometries.getD true, c.fixGeometries.getD false, c.geometryDetail.getD 100⟩

/-- One geometry sequence of a YAIXM airspace definition block. -/
structure GeometrySequence where
  seq : Option ℕ
  upper : String
  lower : String
  cls : Option String
  rules : Option (List String)
  boundary : List BoundarySegment
deriving Repr, DecidableEq

/-- A YAIXM airspace definition block (`class` is spelled `cls`). -/
structure Airspace where
  name : String
  id : Option String
  type : Option String
  localtype : Option String
  cls : Option String
  rules : Option (List String)
  geometry : List GeometrySequence
deriving Repr, DecidableEq

/-- A ground service record of the services file. -/
structure YaixmService where
  callsign : String
  controls : String
  frequency : String
deriving Repr, DecidableEq

/-- The properties of an emitted GeoJSON feature.  Optional properties that
the source leaves `undefined` (and which the `cleanObject` post-processing
removes from the emitted object) are `none`. -/
structure FeatureProperties where
  name : String
  type : String
  cls : String
  upperCeiling : Ceiling
  lowerCeiling : Ceiling
  activatedByNotam : Bool
  activity : String
  remarks : Option String
  groundService : Option (String × String)
deriving Repr, DecidableEq

/-- An emitted GeoJSON airspace feature. -/
structure Feature where
  properties : FeatureProperties
  geometry : Polygon
deriving Repr, DecidableEq

/-- Modelled from the spec: `clean-object.ts` is not among the provided
sources.  Per the output data model of the specification (§3), required
fields — including the boolean `activatedByNotam` — are kept on the emitted
feature; only empty optional values are dropped, which the `Option` fields of
`FeatureProperties` already represent.  Hence the identity. -/
def cleanObject (f : Feature) : Feature := f

/-- `buildAirspaceName` (lines 229-235): suffix the sequence number exactly
when the sequence defines one (`seq == null` is JavaScript loose equality,
covering `null` and `undefined` but not `0`). -/
def buildAirspaceName (name : String) (seq : Option ℕ) : String :=
  match seq with
  | none => name
  | some n => name ++ " " ++ toString n

/-- `createGroundServiceProperty` (lines 316-343): the first service whose
`controls` contains the airspace `id` as a substring provides
`{callsign, frequency}`. -/
def createGroundServiceProperty (id : String) (services : List YaixmService) :
    Option (String × String) :=
  (services.find? fun s => containsSubstring s.controls id).map fun s =>
    (s.callsign, s.frequency)

/-- Lines 268-270: `if (this._fixGeometries) geometry = this.fixGeometry(geometry)`. -/
def applyFixStep (lib : GeoLib) (cfg : Config) (identifier sequenceNumber : String)
    (geometry : Polygon) : Except ConvError Polygon :=
  if cfg.fixGeometries then fixGeometry lib identifier sequenceNumber geometry
  else pure geometry

/-- Lines 271-273: `if (this._validateGeometries) geojsonValidator.validate(geometry)`. -/
def applyValidateStep (lib : GeoLib) (cfg : Config) (geometry : Polygon) :
    Except ConvError Unit :=
  if cfg.validateGeometries then GeojsonPolygonValidator.validate lib geometry else pure ()

/-- The body of the per-sequence loop of `createAirspaceFeatures`
(lines 250-308).  `identifier` is the value of `this._identifier` at loop
entry (the airspace name for the first sequence; `undefined` afterwards,
because `reset()` clears it at the end of each iteration — a quirk of the
source). -/
def processGeometrySequence (lib : GeoLib) (cfg : Config) (identifier : Option String)
    (name : String) (id : Option String) (type localtype baseCls : Option String)
    (baseRules : Option (List String)) (services : List YaixmService)
    (g : GeometrySequence) : Except ConvError Feature := do
  -- `this._sequenceNumber = seq || 0`
  let sequenceNumber := g.seq.getD 0
  let identStr := jsStr identifier
  let seqStr := toString sequenceNumber
  let airspaceName := buildAirspaceName name g.seq
  -- `sequenceClass || baseClass` (strings are truthy when present)
  let airspaceClass := match g.cls with | some c => some c | none => baseCls
  -- `sequenceRules || baseRules` (arrays are truthy, even when empty)
  let airspaceRules := match g.rules with | some r => some r | none => baseRules
  let mapped ← mapClassAndType identStr type localtype airspaceClass airspaceRules
  let upperCeiling ← createCeiling identStr seqStr g.upper
  let lowerCeiling ← createCeiling identStr seqStr g.lower
  let geometry0 ← createPolygonGeometry lib cfg.geometryDetail identStr seqStr g.boundary []
  let geometry1 ← applyFixStep lib cfg identStr seqStr geometry0
  let _u ← applyValidateStep lib cfg geometry1
  let featureProperties : FeatureProperties :=
    { name := airspaceName
      type := mapped.type
      cls := mapped.cls
      upperCeiling := upperCeiling
      lowerCeiling := lowerCeiling
      activatedByNotam := match airspaceRules with
        | some r => r.contains "NOTAM"
        | none => false
      activity := mapped.activity.getD "NONE"
      remarks := airspaceRules.map (String.intercalate ", ")
      groundService := match id with
        | some i => createGroundServiceProperty i services
        | none => none }
  pure (cleanObject ⟨featureProperties, geometry1⟩)

/-- The sequence loop of `createAirspaceFeatures`: process the sequences in
order; `reset()` at the end of each iteration clears `this._identifier`, so
only the first sequence sees the airspace name in its error context. -/
def createAirspaceFeaturesGo (lib : GeoLib) (cfg : Config) (name : String) (id : Option String)
    (type localtype baseCls : Option String) (baseRules : Option (List String))
    (services : List YaixmService) (identifier : Option String) :
    List GeometrySequence → Except ConvError (List Feature)
  | [] => .ok []
  | g :: rest => do
    let f ← processGeometrySequence lib cfg identifier name id type localtype baseCls baseRules
      services g
    let fs ← createAirspaceFeaturesGo lib cfg name id type localtype baseCls baseRules services
      none rest
    pure (f :: fs)

/-- `createAirspaceFeatures` (lines 237-311). -/
def createAirspaceFeatures (lib : GeoLib) (cfg : Config) (services : List YaixmService)
    (a : Airspace) : Except ConvError (List Feature) :=
  createAirspaceFeaturesGo lib cfg a.name a.id a.type a.localtype a.cls a.rules services
    (some a.name) a.geometry

/-- The airspace loop of `convert` (lines 204-212): each airspace definition
block contributes its features in order; the first error aborts the whole
conversion.  (The trailing ajv schema check is an external collaborator and,
in the default non-strict mode, only warns.) -/
def convertAirspaces (lib : GeoLib) (cfg : Config) (services : List YaixmService) :
    List Airspace → Except ConvError (List Feature)
  | [] => .ok []
  | a :: rest => do
    let fs ← createAirspaceFeatures lib cfg services a
    let more ← convertAirspaces lib cfg services rest
    pure (fs ++ more)

/-! ## Specification-side definitions and concrete instances used by the
claims -/

/-- The three accepted ceiling forms as amended: the surface marker, a number
with a *mandatory* `ft`/`FT` unit marker and optional `SFC`, and `FL`
followed by digits.  (The claim's original reading made the unit marker
optional; on a bare number the converter crashes instead of returning a
record, see `claim_C6_counterexample`.) -/
def ceilingSpec (s : String) : Option Ceiling :=
  if s = "SFC" then some ⟨some 0, "FT", "GND"⟩
  else
    match matchFeetChars s.data with
    | some ((intPart, fracPart), some _, sfcPart) =>
      some ⟨some (decimalValue intPart fracPart), "FT", if sfcPart then "GND" else "MSL"⟩
    | some (_, none, _) => none
    | none =>
      match matchFLChars s.data with
      | some (some d) => some ⟨some (digitsToNat d : ℚ), "FL", "STD"⟩
      | _ => none

/-- Whether a ceiling string matches none of the three converter regexes. -/
def matchesNoCeilingForm (s : String) : Prop :=
  s ≠ "SFC" ∧ matchFeetChars s.data = none ∧ matchFLChars s.data = none

instance (s : String) : Decidable (matchesNoCeilingForm s) := by
  unfold matchesNoCeilingForm; infer_instance

/-- The effective rules list of a sequence: the sequence-level rules when the
field is present (a present empty array is still "present" in JavaScript),
otherwise the airspace's base rules. -/
def effectiveRules (g : GeometrySequence) (a : Airspace) : Option (List String) :=
  match g.rules with
  | some r => some r
  | none => a.rules

/-- The NOTAM activation flag the claims describe:
`rules?.includes('NOTAM') === true`. -/
def notamFlag : Option (List String) → Bool
  | some r => r.contains "NOTAM"
  | none => false

/-- An external-library instance on which every geometry is reported valid;
used to drive concrete airspaces end to end through the converter. -/
def okLib : GeoLib where
  destination := fun _ _ b => (b, 0)
  bearing := fun _ _ => 0
  distanceKm := fun _ _ => 1
  areaSqm := fun _ => 0
  unkink := fun p => .ok [p]
  jstsIsValidPolygon := fun _ => true
  jstsIsSimple := fun _ => true
  jstsSelfIntersections := fun _ => none

/-- An external-library instance on which every geometry is reported invalid
with a located self-intersection point, as JSTS reports for a bow-tie ring. -/
def invalidLib : GeoLib where
  destination := fun _ _ b => (b, 0)
  bearing := fun _ _ => 0
  distanceKm := fun _ _ => 1
  areaSqm := fun _ => 0
  unkink := fun p => .ok [p]
  jstsIsValidPolygon := fun _ => false
  jstsIsSimple := fun _ => false
  jstsSelfIntersections := fun _ => some (some (3, 4))

/-- A still-invalid polygon returned by the unkink oracle of `repairLib`. -/
def stillInvalidPolygon : Polygon :=
  ⟨[[(0, 0), (1, 0), (0, 1), (0, 0)]]⟩

/-- An external-library instance on which every geometry is reported invalid
(without a located intersection) and whose unkink step returns
`stillInvalidPolygon`; exercises the repair pipeline of `fixGeometry`. -/
def repairLib : GeoLib where
  destination := fun _ _ b => (b, 0)
  bearing := fun _ _ => 0
  distanceKm := fun _ _ => 1
  areaSqm := fun _ => 0
  unkink := fun _ => .ok [stillInvalidPolygon]
  jstsIsValidPolygon := fun _ => false
  jstsIsSimple := fun _ => true
  jstsSelfIntersections := fun _ => none

/-- A (non-closed) quadrilateral handed to `fixGeometry` in the `repairLib`
scenario. -/
def repairInputPolygon : Polygon :=
  ⟨[[(0, 0), (4, 0), (4, 4), (0, 4)]]⟩

/-- A degenerate two-position polygon: `makeValid` rejects it with the
`insufficient number of coordinates` error, so `fixGeometry` wraps that error
into its named repair-failure message. -/
def twoPointPolygon : Polygon :=
  ⟨[[(0, 0), (1, 1)]]⟩

/-- The wrapped repair-failure error produced for `twoPointPolygon`. -/
def repairFailureError : ConvError :=
  .err ("Failed to create fixed geometry for airspace 'X' in sequence number '2'. " ++
    "Polygon has insufficient number of coordinates: 2")

/-- A triangle line boundary (three coordinate tokens, not collinear). -/
def triangleBoundary : List BoundarySegment :=
  [.line ["520000N 0000000E", "520000N 0010000E", "530000N 0010000E"]]

/-- A collinear line boundary: three points on the Greenwich meridian.  The
assembled ring closes but has zero shoelace area. -/
def collinearBoundary : List BoundarySegment :=
  [.line ["520000N 0000000E", "530000N 0000000E", "540000N 0000000E"]]

/-- A single-sequence airspace whose only geometry sequence carries an
explicit sequence number. -/
def alphaAirspace : Airspace where
  name := "ALPHA"
  id := none
  type := some "D"
  localtype := none
  cls := none
  rules := none
  geometry := [⟨some 1, "FL65", "SFC", none, none, triangleBoundary⟩]

/-- An airspace whose base rules contain `NOTAM` (and whose sequence defines
no rules of its own). -/
def notamAirspace : Airspace where
  name := "BRAVO"
  id := none
  type := some "D"
  localtype := none
  cls := none
  rules := some ["NOTAM"]
  geometry := [⟨some 1, "FL65", "SFC", none, none, triangleBoundary⟩]

/-- An airspace used to exercise the validation-failure path. -/
def testAirspace : Airspace where
  name := "TEST AIRSPACE"
  id := none
  type := some "D"
  localtype := none
  cls := none
  rules := none
  geometry := [⟨some 1, "FL65", "SFC", none, none, triangleBoundary⟩]

/-- The default resolved configuration: geometries are validated, not fixed,
with 100 tessellation steps. -/
def defaultConfig : Config := resolveConfig {}

/-- An external-library instance whose bearing oracle reports 0° towards the
arc's implicit start point `(0, 1)` and 90° towards every other point; its
destination oracle tags each produced point with its bearing. -/
def c4lib : GeoLib where
  destination := fun _ _ b => (b, 0)
  bearing := fun _ p => if p.2 = 1 then 0 else 90
  distanceKm := fun _ _ => 1
  areaSqm := fun _ => 0
  unkink := fun p => .ok [p]
  jstsIsValidPolygon := fun _ => true
  jstsIsSimple := fun _ => true
  jstsSelfIntersections := fun _ => none

/-- A successful concrete arc resolution (the `okLib` bearing oracle is
constant, so the full-circle branch of `lineArc` is taken). -/
def arcWitnessResult : Except ConvError (List Coord) :=
  createCoordinatesFromArc okLib 100 "A" "0" (some "cw") (some "10 NM")
    (some "000000N 0000000E") (some "000000N 0010000E") [(0, 1)]

/-- The coordinate list of `arcWitnessResult`. -/
def arcWitnessPts : List Coord := arcWitnessResult.toOption.getD []

/-- The feature list produced for `notamAirspace`. -/
def notamFeatures : List Feature :=
  (createAirspaceFeatures okLib defaultConfig [] notamAirspace).toOption.getD []

/-- A junk feature used as the default of a lookup. -/
def emptyFeature : Feature :=
  ⟨⟨"", "", "", ⟨none, "", ""⟩, ⟨none, "", ""⟩, false, "", none, none⟩, ⟨[]⟩⟩

/-- The first feature produced for `notamAirspace`. -/
def notamFeature : Feature := notamFeatures.head?.getD emptyFeature

/-- The geometry sequence of `notamAirspace`. -/
def notamSeq : GeometrySequence := ⟨some 1, "FL65", "SFC", none, none, triangleBoundary⟩

/-- The polygon assembled from `triangleBoundary`. -/
def trianglePolygon : Polygon :=
  (createPolygonGeometry okLib 100 "A" "0" triangleBoundary []).toOption.getD ⟨[]⟩

/-- The exterior ring of `trianglePolygon`. -/
def triangleRing : List Coord := trianglePolygon.coordinates.headD []

/-- The feature list produced for `alphaAirspace`. -/
def alphaFeatures : List Feature :=
  (createAirspaceFeatures okLib defaultConfig [] alphaAirspace).toOption.getD []

/-! ## Helper lemmas -/

theorem isPrefixOf_append_self (p t : List Char) : p.isPrefixOf (p ++ t) := by
  rw [List.isPrefixOf_iff_prefix]
  exact List.prefix_append p t

theorem containsSubstringChars_append (pre needle post : List Char) :
    containsSubstringChars needle (pre ++ (needle ++ post)) = true := by
  induction pre with
  | nil =>
    simp only [List.nil_append]
    cases hnp : needle ++ post with
    | nil =>
      rcases List.append_eq_nil.mp hnp with ⟨h1, _⟩
      simp [containsSubstringChars, h1]
    | cons c cs =>
      rw [containsSubstringChars, ← hnp, isPrefixOf_append_self]
      simp
  | cons c pre ih =>
    rw [List.cons_append, containsSubstringChars, ih]
    simp

/-- A string built as `pre ++ mid ++ post` contains `mid` as a substring. -/
theorem containsSubstring_of_parts (hay pre mid post : String)
    (h : hay.data = pre.data ++ (mid.data ++ post.data)) :
    containsSubstring hay mid = true := by
  rw [containsSubstring, h]
  exact containsSubstringChars_append pre.data mid.data post.data

/-! ### Shoelace / rewind lemmas -/

theorem rewindSum_add_shoelaceSum (l : List Coord) (a : Coord) :
    rewindSum (a :: l) + shoelaceSum (a :: l) =
      (l.getLastD a).1 * (l.getLastD a).2 - a.1 * a.2 := by
  induction l generalizing a with
  | nil => simp [rewindSum, shoelaceSum]
  | cons b l ih =>
    have hb := ih b
    rw [List.getLastD_cons]
    rw [show rewindSum (a :: b :: l) = (b.1 - a.1) * (b.2 + a.2) + rewindSum (b :: l) from rfl]
    rw [show shoelaceSum (a :: b :: l) = (a.1 * b.2 - b.1 * a.2) + shoelaceSum (b :: l) from rfl]
    nlinarith [hb]

theorem getLast?_cons_eq_getLastD (a : Coord) (l : List Coord) :
    (a :: l).getLast? = some (l.getLastD a) := by
  induction l generalizing a with
  | nil => rfl
  | cons b l ih => rw [List.getLast?_cons_cons, ih b, List.getLastD_cons]

/-- On a closed ring (first coordinate equal to the last) turf's
`booleanClockwise` sum is the negated shoelace sum. -/
theorem rewindSum_eq_neg_shoelaceSum (l : List Coord) (h : l.head? = l.getLast?) :
    rewindSum l = -shoelaceSum l := by
  cases l with
  | nil => simp [rewindSum, shoelaceSum]
  | cons a l =>
    have hsum := rewindSum_add_shoelaceSum l a
    rw [List.head?_cons, getLast?_cons_eq_getLastD] at h
    have ha : l.getLastD a = a := (Option.some.injEq _ _ ▸ h).symm
    rw [ha] at hsum
    linarith [hsum]

theorem shoelaceSum_concat (m : List Coord) (x : Coord) :
    shoelaceSum (m ++ [x]) =
      shoelaceSum m + (match m.getLast? with
        | some t => t.1 * x.2 - x.1 * t.2
        | none => 0) := by
  induction m with
  | nil => simp [shoelaceSum]
  | cons a m ih =>
    cases m with
    | nil => simp [shoelaceSum]
    | cons b m =>
      rw [List.cons_append, show shoelaceSum (a :: (b :: m ++ [x])) =
          (a.1 * b.2 - b.1 * a.2) + shoelaceSum (b :: m ++ [x]) from rfl]
      rw [show shoelaceSum (a :: b :: m) = (a.1 * b.2 - b.1 * a.2) + shoelaceSum (b :: m) from rfl]
      rw [ih]
      rw [List.getLast?_cons_cons]
      exact (add_assoc _ _ _).symm

theorem shoelaceSum_reverse (l : List Coord) : shoelaceSum l.reverse = -shoelaceSum l := by
  induction l with
  | nil => simp [shoelaceSum]
  | cons a l ih =>
    rw [List.reverse_cons, shoelaceSum_concat, ih, List.getLast?_reverse]
    cases l with
    | nil => simp [shoelaceSum]
    | cons b l =>
      rw [List.head?_cons, show shoelaceSum (a :: b :: l) =
        (a.1 * b.2 - b.1 * a.2) + shoelaceSum (b :: l) from rfl]
      ring_nf

theorem shoelaceSum_rewindRing_nonneg (ring : List Coord) (h : ring.head? = ring.getLast?) :
    0 ≤ shoelaceSum (rewindRing ring) := by
  unfold rewindRing booleanClockwise
  have hrs := rewindSum_eq_neg_shoelaceSum ring h
  by_cases hc : 0 < rewindSum ring
  · rw [if_pos (by simpa using hc), shoelaceSum_reverse]
    linarith
  · rw [if_neg (by simpa using hc)]
    linarith

theorem head?_append_left {α : Type} (l t : List α) (h : l ≠ []) :
    (l ++ t).head? = l.head? := by
  cases l with
  | nil => exact absurd rfl h
  | cons a l => rfl

/-- `autoCompleteCoords` closes every coordinate list. -/
theorem autoCompleteCoords_closed (coords : List Coord) :
    (autoCompleteCoords coords).head? = (autoCompleteCoords coords).getLast? := by
  cases coords with
  | nil => rfl
  | cons a l =>
    rw [show autoCompleteCoords (a :: l) =
      (if a.1 = (l.getLastD a).1 ∧ a.2 = (l.getLastD a).2 then a :: l else (a :: l) ++ [a])
      from rfl]
    by_cases heq : a.1 = (l.getLastD a).1 ∧ a.2 = (l.getLastD a).2
    · rw [if_pos heq, List.head?_cons, getLast?_cons_eq_getLastD]
      have : a = l.getLastD a := Prod.ext heq.1 heq.2
      rw [← this]
    · rw [if_neg heq]
      rw [show (a :: l) ++ [a] = a :: (l ++ [a]) from rfl, List.head?_cons,
        getLast?_cons_eq_getLastD]
      have : (l ++ [a]).getLastD a = a := by
        have h2 : (a :: (l ++ [a])).getLast? = some a := by
          rw [show a :: (l ++ [a]) = (a :: l) ++ [a] from rfl, List.getLast?_concat]
        rw [getLast?_cons_eq_getLastD] at h2
        exact Option.some.injEq _ _ ▸ h2
      rw [this]

/-- `rewindRing` preserves ring closure. -/
theorem rewindRing_closed (ring : List Coord) (h : ring.head? = ring.getLast?) :
    (rewindRing ring).head? = (rewindRing ring).getLast? := by
  unfold rewindRing
  by_cases hc : booleanClockwise ring
  · rw [if_pos hc, List.head?_reverse, List.getLast?_reverse]
    exact h.symm
  · rw [if_neg hc]
    exact h

theorem rewindRing_length (ring : List Coord) :
    (rewindRing ring).length = ring.length := by
  unfold rewindRing
  by_cases hc : booleanClockwise ring
  · rw [if_pos hc, List.length_reverse]
  · rw [if_neg hc]

/-- Characterization of a successful polygon assembly: the produced polygon
is the rewound auto-completed ring of the resolved boundary coordinates, and
those passed both turf length checks. -/
theorem createPolygonGeometry_ok (lib : GeoLib) (geometryDetail : ℕ)
    (identifier sequenceNumber : String) (boundary : List BoundarySegment)
    (boundaryCoordinates : List Coord) (p : Polygon)
    (h : createPolygonGeometry lib geometryDetail identifier sequenceNumber boundary
      boundaryCoordinates = .ok p) :
    ∃ coords, resolveBoundary lib geometryDetail identifier sequenceNumber boundary
        boundaryCoordinates = .ok coords ∧ 2 ≤ coords.length ∧
      4 ≤ (autoCompleteCoords coords).length ∧
      p = ⟨[rewindRing (autoCompleteCoords coords)]⟩ := by
  unfold createPolygonGeometry at h
  cases hres : resolveBoundary lib geometryDetail identifier sequenceNumber boundary
      boundaryCoordinates with
  | error e =>
    rw [hres] at h
    exact absurd h (by simp [Bind.bind, Except.bind])
  | ok coords =>
    rw [hres] at h
    refine ⟨coords, rfl, ?_⟩
    by_cases h2 : coords.length < 2
    · exact absurd h (by simp [Bind.bind, Except.bind, h2, throw, throwThe,
        MonadExceptOf.throw])
    · by_cases h4 : (autoCompleteCoords coords).length < 4
      · exact absurd h (by simp [Bind.bind, Except.bind, h2, h4, throw, throwThe,
          MonadExceptOf.throw])
      · refine ⟨by omega, by omega, ?_⟩
        have : Except.ok (ε := ConvError) (⟨[rewindRing (autoCompleteCoords coords)]⟩ : Polygon)
            = .ok p := by
          simpa [Bind.bind, Except.bind, h2, h4, pure, Except.pure] using h
        exact (Except.ok.injEq _ _ ▸ this).symm

/-- Splitting a successful `Except` bind into its two successful stages. -/
theorem except_bind_ok {α β : Type} (x : Except ConvError α) (fn : α → Except ConvError β)
    (b : β) (h : (x >>= fn) = .ok b) : ∃ a, x = .ok a ∧ fn a = .ok b := by
  cases x with
  | error e => exact absurd h (by simp [Bind.bind, Except.bind])
  | ok a => exact ⟨a, rfl, by simpa [Bind.bind, Except.bind] using h⟩

/-- Every error the polygon validator's `validate` can throw is one of a
fixed set of messages; none of them mentions the airspace, the sequence
number or an intersection coordinate. -/
theorem validate_error_messages (lib : GeoLib) (p : Polygon) (e : ConvError)
    (h : GeojsonPolygonValidator.validate lib p = .error e) :
    e = ConvError.typeError ∨
      e = .err "Geometry is invalid due to a self intersection" ∨
      e = .err "Geometry is invalid" ∨
      e = .err "Each LinearRing of a Polygon must have 4 or more Positions." ∨
      ∃ n : ℕ, e = .err ("Polygon has insufficient number of coordinates: " ++ toString n) := by
  unfold GeojsonPolygonValidator.validate at h
  cases hx : GeojsonPolygonValidator.extractGeometry p with
  | error e' =>
    rw [hx] at h
    simp only [Bind.bind, Except.bind] at h
    cases h
    unfold GeojsonPolygonValidator.extractGeometry at hx
    cases hh : p.coordinates.head? with
    | none =>
      simp only [hh] at hx
      cases hx
      exact Or.inl rfl
    | some coordinates =>
      simp only [hh] at hx
      by_cases hlen : coordinates.length ≤ 2
      · rw [if_pos hlen] at hx
        cases hx
        exact Or.inr (Or.inr (Or.inr (Or.inr ⟨coordinates.length, rfl⟩)))
      · rw [if_neg hlen] at hx
        cases hx
  | ok coordinates =>
    rw [hx] at h
    simp only [Bind.bind, Except.bind] at h
    by_cases h4 : (autoCompleteCoords coordinates).length < 4
    · rw [if_pos h4] at h
      simp only [throw, throwThe, MonadExceptOf.throw] at h
      cases h
      exact Or.inr (Or.inr (Or.inr (Or.inl rfl)))
    · rw [if_neg h4] at h
      by_cases hcond : lib.jstsIsValidPolygon ⟨[autoCompleteCoords coordinates]⟩ = false ∨
          lib.jstsIsSimple ⟨[autoCompleteCoords coordinates]⟩ = false ∨
          (lib.jstsSelfIntersections ⟨[autoCompleteCoords coordinates]⟩).isSome = true
      · rw [if_pos hcond] at h
        by_cases hsi : (lib.jstsSelfIntersections ⟨[autoCompleteCoords coordinates]⟩).isSome
            = true
        · rw [if_pos hsi] at h
          simp only [throw, throwThe, MonadExceptOf.throw] at h
          cases h
          exact Or.inr (Or.inl rfl)
        · rw [if_neg hsi] at h
          simp only [throw, throwThe, MonadExceptOf.throw] at h
          cases h
          exact Or.inr (Or.inr (Or.inl rfl))
      · rw [if_neg hcond] at h
        exact Except.noConfusion h

/-- Field contents of a successfully produced feature: its name comes from
`buildAirspaceName` applied to the sequence's own `seq` field, and its NOTAM
flag from the effective rules list. -/
theorem processGeometrySequence_ok_props (lib : GeoLib) (cfg : Config) (idt : Option String)
    (name : String) (id : Option String) (ty lt bc : Option String)
    (br : Option (List String)) (sv : List YaixmService) (g : GeometrySequence) (f : Feature)
    (h : processGeometrySequence lib cfg idt name id ty lt bc br sv g = .ok f) :
    f.properties.name = buildAirspaceName name g.seq ∧
      f.properties.activatedByNotam =
        notamFlag (match g.rules with | some r => some r | none => br) := by
  unfold processGeometrySequence at h
  obtain ⟨mapped, hm, h⟩ := except_bind_ok _ _ _ h
  obtain ⟨up, hu, h⟩ := except_bind_ok _ _ _ h
  obtain ⟨lo, hl, h⟩ := except_bind_ok _ _ _ h
  obtain ⟨g0, hg0, h⟩ := except_bind_ok _ _ _ h
  obtain ⟨g1, hg1, h⟩ := except_bind_ok _ _ _ h
  obtain ⟨u, hv, h⟩ := except_bind_ok _ _ _ h
  simp only [pure, Except.pure, cleanObject] at h
  cases h
  refine ⟨rfl, ?_⟩
  cases hr : g.rules with
  | none => simp [notamFlag, hr]
  | some r => simp [notamFlag, hr]

/-- Unfolding one step of the sequence loop. -/
theorem createAirspaceFeaturesGo_ok (lib : GeoLib) (cfg : Config) (name : String)
    (id : Option String) (ty lt bc : Option String) (br : Option (List String))
    (sv : List YaixmService) :
    ∀ (gs : List GeometrySequence) (ident : Option String) (fs : List Feature),
      createAirspaceFeaturesGo lib cfg name id ty lt bc br sv ident gs = .ok fs →
      fs.length = gs.length ∧
        ∀ i f, fs.get? i = some f → ∃ g, gs.get? i = some g ∧
          ∃ idt, processGeometrySequence lib cfg idt name id ty lt bc br sv g = .ok f := by
  intro gs
  induction gs with
  | nil =>
    intro ident fs h
    unfold createAirspaceFeaturesGo at h
    cases h
    exact ⟨rfl, by intro i f hf; simp at hf⟩
  | cons g rest ih =>
    intro ident fs h
    unfold createAirspaceFeaturesGo at h
    obtain ⟨f, hf, h⟩ := except_bind_ok _ _ _ h
    obtain ⟨fs', hfs', h⟩ := except_bind_ok _ _ _ h
    simp only [pure, Except.pure] at h
    cases h
    obtain ⟨hlen, hget⟩ := ih none fs' hfs'
    refine ⟨by simp [hlen], ?_⟩
    intro i fi hfi
    cases i with
    | zero =>
      simp only [List.get?_cons_zero] at hfi
      cases hfi
      exact ⟨g, rfl, ident, hf⟩
    | succ n =>
      simp only [List.get?_cons_succ] at hfi
      obtain ⟨g', hg', hp⟩ := hget n fi hfi
      exact ⟨g', by simpa using hg', hp⟩

/-- The unit group of a successful feet-regex match is `ft` or `FT`. -/
theorem matchFeetChars_unit (cs : List Char) (np : List Char × List Char) (u : List Char)
    (sf : Bool) (h : matchFeetChars cs = some (np, some u, sf)) :
    u = ['f', 't'] ∨ u = ['F', 'T'] := by
  unfold matchFeetChars at h
  dsimp only at h
  split at h
  · cases h
  · split at h
    · rename_i heq
      rw [Option.some.injEq] at h
      have hu := congrArg (fun t => t.2.1) h
      simp only at hu
      revert hu
      split
      · intro hu; cases hu; exact Or.inl rfl
      · intro hu; cases hu; exact Or.inr rfl
      · intro hu; cases hu
    · cases h

theorem string_data_append (a b : String) : (a ++ b).data = a.data ++ b.data := rfl

/-! ### Evaluation lemmas for `createCeiling` -/

theorem createCeiling_eq_sfc (identifier sequenceNumber s : String) (hs : s = "SFC") :
    createCeiling identifier sequenceNumber s = .ok ⟨some 0, "FT", "GND"⟩ := by
  subst hs; rfl

theorem createCeiling_eq_feet (identifier sequenceNumber s : String)
    (np : List Char × List Char) (u : List Char) (sf : Bool) (hs : s ≠ "SFC")
    (hf : matchFeetChars s.data = some (np, some u, sf)) :
    createCeiling identifier sequenceNumber s =
      .ok ⟨some (decimalValue np.1 np.2), String.mk (u.map Char.toUpper),
        if sf then "GND" else "MSL"⟩ := by
  unfold createCeiling
  simp [hf, hs]

theorem createCeiling_eq_feet_nounit (identifier sequenceNumber s : String)
    (np : List Char × List Char) (sf : Bool) (hs : s ≠ "SFC")
    (hf : matchFeetChars s.data = some (np, none, sf)) :
    createCeiling identifier sequenceNumber s = .error .typeError := by
  unfold createCeiling
  simp [hf, hs]

theorem createCeiling_eq_fl (identifier sequenceNumber s : String) (d : Option (List Char))
    (hs : s ≠ "SFC") (hfeet : matchFeetChars s.data = none)
    (hfl : matchFLChars s.data = some d) :
    createCeiling identifier sequenceNumber s =
      .ok ⟨d.map (fun l => (digitsToNat l : ℚ)), "FL", "STD"⟩ := by
  unfold createCeiling
  simp [hfeet, hfl, hs]

theorem createCeiling_eq_invalid (identifier sequenceNumber s : String) (hs : s ≠ "SFC")
    (hfeet : matchFeetChars s.data = none) (hfl : matchFLChars s.data = none) :
    createCeiling identifier sequenceNumber s =
      .error (.err (invalidCeilingMessage s identifier sequenceNumber)) := by
  unfold createCeiling
  simp [hfeet, hfl, hs]

/-! ## Claim C5 -/

/-- C5 counterexample: mapping `type='D', class=null, localtype='GVS'` does
not succeed with `WARNING`/`UNCLASSIFIED`; the combination table only maps
`D_OTHER|GVS`, so `D|GVS` falls into the unmapped-combination error. -/
theorem claim_C5_counterexample :
    mapClassAndType "A" (some "D") (some "GVS") none none =
      .error (.err ("Failed to map class/type combination for airspace 'A'. " ++
        "The 'type' value 'D' and 'localtype' value 'GVS' has no configured mapping.")) ∧
    mapClassAndType "A" (some "D") (some "GVS") none none ≠
      .ok ⟨"WARNING", "UNCLASSIFIED", none⟩ := by
  constructor
  · rfl
  · with_unfolding_all decide

/-- C5 (amended): the `WARNING`/`UNCLASSIFIED` result is produced for raw
type `D_OTHER` with localtype `GVS` (and no class); raw type `D` with
localtype `GVS` and no class has no configured mapping and fails with the
unmapped-taxonomy error naming the airspace. -/
theorem claim_C5_gvs_mapping (identifier : String) :
    mapClassAndType identifier (some "D_OTHER") (some "GVS") none none =
      .ok ⟨"WARNING", "UNCLASSIFIED", none⟩ ∧
    mapClassAndType identifier (some "D") (some "GVS") none none =
      .error (.err (("Failed to map class/type combination for airspace '" ++ identifier ++
        "'.") ++ " The 'type' value '" ++ "D" ++ "' and 'localtype' value '" ++ "GVS" ++
        "' has no configured mapping.")) := by
  constructor
  · rfl
  · rfl

/-! ## Claim C6 -/

/-- C6 counterexample: the string `"1500"` matches the feet regex (whose unit
group is optional), but `createCeiling` dereferences the absent unit group
and crashes with a `TypeError` instead of returning `{1500, FT, MSL}`. -/
theorem claim_C6_counterexample :
    createCeiling "A" "0" "1500" = .error ConvError.typeError ∧
    createCeiling "A" "0" "1500" ≠ .ok ⟨some 1500, "FT", "MSL"⟩ := by
  constructor
  · rfl
  · with_unfolding_all decide

/-- C6 (amended): for every altitude string in one of the three accepted
forms — where the feet form must carry an explicit `ft`/`FT` unit marker —
`createCeiling` returns the record described by the specification
(`ceilingSpec`).  Without the unit marker the feet form crashes instead (see
the counterexample). -/
theorem claim_C6_ceiling_forms (identifier sequenceNumber s : String) (c : Ceiling)
    (h : ceilingSpec s = some c) :
    createCeiling identifier sequenceNumber s = .ok c := by
  unfold ceilingSpec at h
  by_cases hs : s = "SFC"
  · rw [if_pos hs] at h
    cases h
    exact createCeiling_eq_sfc identifier sequenceNumber s hs
  · rw [if_neg hs] at h
    cases hfeet : matchFeetChars s.data with
    | some v =>
      obtain ⟨np, unitOpt, sf⟩ := v
      cases unitOpt with
      | some u =>
        simp only [hfeet] at h
        cases h
        rw [createCeiling_eq_feet identifier sequenceNumber s np u sf hs hfeet]
        rcases matchFeetChars_unit s.data np u sf hfeet with hu | hu <;> subst hu <;> rfl
      | none =>
        simp only [hfeet] at h
        cases h
    | none =>
      simp only [hfeet] at h
      cases hfl : matchFLChars s.data with
      | some d =>
        cases d with
        | some dd =>
          simp only [hfl] at h
          cases h
          rw [createCeiling_eq_fl identifier sequenceNumber s (some dd) hs hfeet hfl]
          rfl
        | none =>
          simp only [hfl] at h
          cases h
      | none =>
        simp only [hfl] at h
        cases h

/-- C6 witness: the three concrete scenarios of the specification. -/
theorem claim_C6_ceiling_forms_witness :
    createCeiling "A" "0" "FL115" = .ok ⟨some 115, "FL", "STD"⟩ ∧
    createCeiling "A" "0" "1500 ft" = .ok ⟨some 1500, "FT", "MSL"⟩ ∧
    createCeiling "A" "0" "SFC" = .ok ⟨some 0, "FT", "GND"⟩ :=
  ⟨claim_C6_ceiling_forms "A" "0" "FL115" ⟨some 115, "FL", "STD"⟩
      (by with_unfolding_all decide),
   claim_C6_ceiling_forms "A" "0" "1500 ft" ⟨some 1500, "FT", "MSL"⟩
      (by with_unfolding_all decide),
   claim_C6_ceiling_forms "A" "0" "SFC" ⟨some 0, "FT", "GND"⟩
      (by with_unfolding_all decide)⟩

/-! ## Claim C7 -/

/-- C7 (confirmed): `createCeiling` raises the `Invalid ceiling definition`
error precisely for the strings matching none of the three accepted regexes,
and that error's message contains the offending string, the airspace
identifier and the sequence number. -/
theorem claim_C7_invalid_ceiling (identifier sequenceNumber s : String) :
    (∀ m : String,
      createCeiling identifier sequenceNumber s = .error (.err m) ↔
        matchesNoCeilingForm s ∧ m = invalidCeilingMessage s identifier sequenceNumber) ∧
    containsSubstring (invalidCeilingMessage s identifier sequenceNumber) s = true ∧
    containsSubstring (invalidCeilingMessage s identifier sequenceNumber) identifier = true ∧
    containsSubstring (invalidCeilingMessage s identifier sequenceNumber) sequenceNumber
      = true := by
  refine ⟨?_, ?_, ?_, ?_⟩
  · intro m
    constructor
    · intro h
      by_cases hs : s = "SFC"
      · rw [createCeiling_eq_sfc identifier sequenceNumber s hs] at h
        cases h
      · cases hfeet : matchFeetChars s.data with
        | some v =>
          obtain ⟨np, uo, sf⟩ := v
          cases uo with
          | some u =>
            rw [createCeiling_eq_feet identifier sequenceNumber s np u sf hs hfeet] at h
            cases h
          | none =>
            rw [createCeiling_eq_feet_nounit identifier sequenceNumber s np sf hs hfeet] at h
            cases h
        | none =>
          cases hfl : matchFLChars s.data with
          | some d =>
            rw [createCeiling_eq_fl identifier sequenceNumber s d hs hfeet hfl] at h
            cases h
          | none =>
            rw [createCeiling_eq_invalid identifier sequenceNumber s hs hfeet hfl] at h
            refine ⟨⟨hs, hfeet, hfl⟩, ?_⟩
            cases h
            rfl
    · rintro ⟨⟨hs, hfeet, hfl⟩, rfl⟩
      exact createCeiling_eq_invalid identifier sequenceNumber s hs hfeet hfl
  · exact containsSubstring_of_parts _ "Invalid ceiling definition '" s
      ("' for airspace '" ++ identifier ++ "' in sequence number '" ++ sequenceNumber ++ "'")
      (by simp [invalidCeilingMessage, string_data_append, List.append_assoc])
  · exact containsSubstring_of_parts _
      ("Invalid ceiling definition '" ++ s ++ "' for airspace '") identifier
      ("' in sequence number '" ++ sequenceNumber ++ "'")
      (by simp [invalidCeilingMessage, string_data_append, List.append_assoc])
  · exact containsSubstring_of_parts _
      ("Invalid ceiling definition '" ++ s ++ "' for airspace '" ++ identifier ++
        "' in sequence number '") sequenceNumber "'"
      (by simp [invalidCeilingMessage, string_data_append, List.append_assoc])

/-! ## Claim C8 -/

/-- C8 (confirmed): an arc boundary segment encountered with no previously
accumulated coordinate fails with the `Previous coordinate pair is missing`
error naming the airspace and the sequence number (this check precedes all
field validation), and a successful arc resolution implies that at least one
coordinate was accumulated earlier in the same boundary. -/
theorem claim_C8_arc_requires_previous (lib : GeoLib) (geometryDetail : ℕ)
    (identifier sequenceNumber : String) (dir radius centre toPt : Option String) :
    createCoordinatesFromArc lib geometryDetail identifier sequenceNumber dir radius centre
        toPt [] =
      .error (.err (arcMissingPreviousMessage dir radius centre toPt identifier
        sequenceNumber)) ∧
    containsSubstring (arcMissingPreviousMessage dir radius centre toPt identifier
      sequenceNumber) "Previous coordinate pair is missing" = true ∧
    containsSubstring (arcMissingPreviousMessage dir radius centre toPt identifier
      sequenceNumber) identifier = true ∧
    containsSubstring (arcMissingPreviousMessage dir radius centre toPt identifier
      sequenceNumber) sequenceNumber = true ∧
    ∀ (boundaryCoordinates coords : List Coord),
      createCoordinatesFromArc lib geometryDetail identifier sequenceNumber dir radius centre
          toPt boundaryCoordinates = .ok coords →
      boundaryCoordinates ≠ [] := by
  have hempty : createCoordinatesFromArc lib geometryDetail identifier sequenceNumber dir
      radius centre toPt [] =
      .error (.err (arcMissingPreviousMessage dir radius centre toPt identifier
        sequenceNumber)) := rfl
  refine ⟨hempty, ?_, ?_, ?_, ?_⟩
  · exact containsSubstring_of_parts _
      ("Invalid arc boundary definition '" ++ arcStringify dir radius centre toPt ++
        "' for airspace '" ++ identifier ++ "' in sequence number '" ++ sequenceNumber ++
        "'. ") "Previous coordinate pair is missing" "."
      (by simp [arcMissingPreviousMessage, string_data_append, List.append_assoc])
  · exact containsSubstring_of_parts _
      ("Invalid arc boundary definition '" ++ arcStringify dir radius centre toPt ++
        "' for airspace '") identifier
      ("' in sequence number '" ++ sequenceNumber ++ "'. Previous coordinate pair is missing.")
      (by simp [arcMissingPreviousMessage, string_data_append, List.append_assoc])
  · exact containsSubstring_of_parts _
      ("Invalid arc boundary definition '" ++ arcStringify dir radius centre toPt ++
        "' for airspace '" ++ identifier ++ "' in sequence number '") sequenceNumber
      ("'. Previous coordinate pair is missing.")
      (by simp [arcMissingPreviousMessage, string_data_append, List.append_assoc])
  · intro boundaryCoordinates coords h hbc
    subst hbc
    rw [hempty] at h
    exact Except.noConfusion h

/-- C8 witness: a concrete arc with no previous coordinate fails with the
missing-previous error; a concrete successful arc implies its accumulated
list was nonempty. -/
theorem claim_C8_arc_requires_previous_witness :
    createCoordinatesFromArc okLib 100 "A" "0" (some "cw") (some "10 NM")
        (some "000000N 0000000E") (some "000000N 0010000E") [] =
      .error (.err (arcMissingPreviousMessage (some "cw") (some "10 NM")
        (some "000000N 0000000E") (some "000000N 0010000E") "A" "0")) ∧
    ([(0, 1)] : List Coord) ≠ [] :=
  ⟨(claim_C8_arc_requires_previous okLib 100 "A" "0" (some "cw") (some "10 NM")
      (some "000000N 0000000E") (some "000000N 0010000E")).1,
   (claim_C8_arc_requires_previous okLib 100 "A" "0" (some "cw") (some "10 NM")
      (some "000000N 0000000E") (some "000000N 0010000E")).2.2.2.2 [(0, 1)] arcWitnessPts
      (by with_unfolding_all rfl)⟩

/-! ## Claim C1 -/

/-- C1 (amended): `fixGeometry` either fails with the repair-failure error
naming the airspace and sequence number (never any other exception), or
returns its input unchanged (when the composite `isValid` check passed) or
the result of `makeValid` — which it does *not* re-validate. -/
theorem claim_C1_repair_contract (lib : GeoLib) (identifier sequenceNumber : String)
    (geometry : Polygon) :
    (∀ e, fixGeometry lib identifier sequenceNumber geometry = .error e →
      ∃ m, e = ConvError.err m ∧
        containsSubstring m "Failed to create fixed geometry for airspace '" = true ∧
        containsSubstring m identifier = true ∧
        containsSubstring m sequenceNumber = true) ∧
    (∀ p, fixGeometry lib identifier sequenceNumber geometry = .ok p →
      (GeojsonPolygonValidator.isValid lib geometry = true ∧ p = geometry) ∨
        GeojsonPolygonValidator.makeValid lib geometry = .ok p) := by
  constructor
  · intro e h
    unfold fixGeometry at h
    by_cases hv : GeojsonPolygonValidator.isValid lib geometry
    · rw [if_pos hv] at h
      cases h
    · rw [if_neg hv] at h
      cases hmv : GeojsonPolygonValidator.makeValid lib geometry with
      | ok q =>
        simp only [hmv] at h
        cases h
      | error e' =>
        simp only [hmv] at h
        cases h
        refine ⟨fixGeometryFailMessage identifier sequenceNumber e', rfl, ?_, ?_, ?_⟩
        · exact containsSubstring_of_parts _ ""
            "Failed to create fixed geometry for airspace '"
            (identifier ++ "' in sequence number '" ++ sequenceNumber ++ "'. " ++
              errorMessageOf e')
            (by simp [fixGeometryFailMessage, string_data_append, List.append_assoc])
        · exact containsSubstring_of_parts _
            "Failed to create fixed geometry for airspace '" identifier
            ("' in sequence number '" ++ sequenceNumber ++ "'. " ++ errorMessageOf e')
            (by simp [fixGeometryFailMessage, string_data_append, List.append_assoc])
        · exact containsSubstring_of_parts _
            ("Failed to create fixed geometry for airspace '" ++ identifier ++
              "' in sequence number '") sequenceNumber ("'. " ++ errorMessageOf e')
            (by simp [fixGeometryFailMessage, string_data_append, List.append_assoc])
  · intro p h
    unfold fixGeometry at h
    by_cases hv : GeojsonPolygonValidator.isValid lib geometry
    · rw [if_pos hv] at h
      cases h
      exact Or.inl ⟨hv, rfl⟩
    · rw [if_neg hv] at h
      cases hmv : GeojsonPolygonValidator.makeValid lib geometry with
      | ok q =>
        simp only [hmv] at h
        cases h
        exact Or.inr rfl
      | error e' =>
        simp only [hmv] at h
        cases h

/-- C1 witness: a degenerate two-position polygon makes `makeValid` throw,
and `fixGeometry` wraps that into the named repair-failure error. -/
theorem claim_C1_repair_contract_witness :
    fixGeometry repairLib "X" "2" twoPointPolygon = .error repairFailureError ∧
    (∃ m, repairFailureError = ConvError.err m ∧
      containsSubstring m "Failed to create fixed geometry for airspace '" = true ∧
      containsSubstring m "X" = true ∧
      containsSubstring m "2" = true) :=
  ⟨by with_unfolding_all decide,
   (claim_C1_repair_contract repairLib "X" "2" twoPointPolygon).1 repairFailureError
     (by with_unfolding_all decide)⟩

/-- C1 counterexample: with the external repair routines supplying a
sub-polygon that the validator still reports invalid, `fixGeometry` returns
that still-invalid polygon without raising any error — the code performs no
final `isValid` re-check. -/
theorem claim_C1_counterexample :
    fixGeometry repairLib "FOO" "1" repairInputPolygon = .ok stillInvalidPolygon ∧
    GeojsonPolygonValidator.isValid repairLib stillInvalidPolygon = false := by
  with_unfolding_all decide

/-! ## Claim C2 -/

/-- C2 (amended): under `validateGeometries=true, fixGeometries=false` (the
default configuration) a geometry-sequence failure aborts the whole
conversion with the raised error, but any error raised by the validator's
`validate` carries one of a fixed set of messages that name neither the
airspace, nor the sequence number, nor a self-intersection coordinate. -/
theorem claim_C2_validation_abort :
    (∀ (lib : GeoLib) (p : Polygon) (e : ConvError),
      GeojsonPolygonValidator.validate lib p = .error e →
        e = ConvError.typeError ∨
        e = .err "Geometry is invalid due to a self intersection" ∨
        e = .err "Geometry is invalid" ∨
        e = .err "Each LinearRing of a Polygon must have 4 or more Positions." ∨
        ∃ n : ℕ, e = .err ("Polygon has insufficient number of coordinates: " ++ toString n)) ∧
    (∀ (lib : GeoLib) (services : List YaixmService) (a : Airspace) (g : GeometrySequence)
      (e : ConvError), a.geometry = [g] →
      processGeometrySequence lib defaultConfig (some a.name) a.name a.id a.type a.localtype
          a.cls a.rules services g = .error e →
      createAirspaceFeatures lib defaultConfig services a = .error e ∧
      convertAirspaces lib defaultConfig services [a] = .error e) := by
  constructor
  · exact validate_error_messages
  · intro lib services a g e hgeom hproc
    have h1 : createAirspaceFeatures lib defaultConfig services a = .error e := by
      unfold createAirspaceFeatures
      rw [hgeom]
      unfold createAirspaceFeaturesGo
      simp only [hproc, Bind.bind, Except.bind]
    refine ⟨h1, ?_⟩
    unfold convertAirspaces
    simp only [h1, Bind.bind, Except.bind]

/-- C2 witness: a concretely invalid geometry aborts the conversion of
`testAirspace`, and the raised message is in the fixed validator set. -/
theorem claim_C2_validation_abort_witness :
    createAirspaceFeatures invalidLib defaultConfig [] testAirspace =
      .error (.err "Geometry is invalid due to a self intersection") ∧
    (ConvError.err "Geometry is invalid due to a self intersection" = ConvError.typeError ∨
      ConvError.err "Geometry is invalid due to a self intersection" =
        .err "Geometry is invalid due to a self intersection" ∨
      ConvError.err "Geometry is invalid due to a self intersection" =
        .err "Geometry is invalid" ∨
      ConvError.err "Geometry is invalid due to a self intersection" =
        .err "Each LinearRing of a Polygon must have 4 or more Positions." ∨
      ∃ n : ℕ, ConvError.err "Geometry is invalid due to a self intersection" =
        .err ("Polygon has insufficient number of coordinates: " ++ toString n)) :=
  ⟨(claim_C2_validation_abort.2 invalidLib [] testAirspace
      ⟨some 1, "FL65", "SFC", none, none, triangleBoundary⟩
      (.err "Geometry is invalid due to a self intersection") (by with_unfolding_all decide)
      (by with_unfolding_all decide)).1,
   claim_C2_validation_abort.1 invalidLib ⟨[[(0, 52), (1, 52), (1, 53), (0, 52)]]⟩
     (.err "Geometry is invalid due to a self intersection") (by with_unfolding_all decide)⟩

/-- C2 counterexample: the conversion of `testAirspace` (named
`TEST AIRSPACE`, sequence number 1, oracle-located intersection at `(3, 4)`)
aborts with the validator's fixed message, which contains neither the
airspace identifier, nor the sequence number, nor the coordinate. -/
theorem claim_C2_counterexample :
    convertAirspaces invalidLib defaultConfig [] [testAirspace] =
      .error (.err "Geometry is invalid due to a self intersection") ∧
    containsSubstring "Geometry is invalid due to a self intersection" "TEST AIRSPACE"
      = false ∧
    containsSubstring "Geometry is invalid due to a self intersection" "1" = false ∧
    containsSubstring "Geometry is invalid due to a self intersection" "3" = false ∧
    containsSubstring "Geometry is invalid due to a self intersection" "4" = false := by
  with_unfolding_all decide

/-! ## Claim C3 -/

/-- C3 (amended): every successfully assembled polygon consists of one
exterior ring that is closed (first position equals last), has at least four
positions, and whose shoelace sum is non-negative — counter-clockwise
whenever the ring is not degenerate.  (A degenerate collinear boundary
yields a closed ring of shoelace sum zero, see the counterexample.) -/
theorem claim_C3_polygon_winding (lib : GeoLib) (geometryDetail : ℕ)
    (identifier sequenceNumber : String) (boundary : List BoundarySegment)
    (boundaryCoordinates : List Coord) (p : Polygon)
    (h : createPolygonGeometry lib geometryDetail identifier sequenceNumber boundary
      boundaryCoordinates = .ok p) :
    p.coordinates.length = 1 ∧
    ∀ ring, p.coordinates = [ring] →
      ring.head? = ring.getLast? ∧ 4 ≤ ring.length ∧ 0 ≤ shoelaceSum ring := by
  obtain ⟨coords, hres, h2, h4, hp⟩ :=
    createPolygonGeometry_ok lib geometryDetail identifier sequenceNumber boundary
      boundaryCoordinates p h
  subst hp
  refine ⟨rfl, ?_⟩
  intro ring hring
  have hr : rewindRing (autoCompleteCoords coords) = ring := by
    have := congrArg List.head? hring
    simpa using this
  subst hr
  refine ⟨rewindRing_closed _ (autoCompleteCoords_closed coords), ?_, ?_⟩
  · rw [rewindRing_length]
    exact h4
  · exact shoelaceSum_rewindRing_nonneg _ (autoCompleteCoords_closed coords)

/-- C3 witness: the triangle boundary assembles into a closed
counter-clockwise ring. -/
theorem claim_C3_polygon_winding_witness :
    triangleRing.head? = triangleRing.getLast? ∧ 4 ≤ triangleRing.length ∧
      0 ≤ shoelaceSum triangleRing :=
  (claim_C3_polygon_winding okLib 100 "A" "0" triangleBoundary [] trianglePolygon
    (by with_unfolding_all rfl)).2 triangleRing (by with_unfolding_all rfl)

/-- C3 counterexample: three collinear boundary points assemble into a
closed zero-area ring, whose shoelace sum does not have the positive
(counter-clockwise) sign the claim asserts. -/
theorem claim_C3_counterexample :
    createPolygonGeometry okLib 100 "A" "0" collinearBoundary [] =
      .ok ⟨[[(0, 52), (0, 53), (0, 54), (0, 52)]]⟩ ∧
    shoelaceSum [((0 : ℚ), (52 : ℚ)), (0, 53), (0, 54), (0, 52)] = 0 ∧
    ¬(0 < shoelaceSum [((0 : ℚ), (52 : ℚ)), (0, 53), (0, 54), (0, 52)]) := by
  with_unfolding_all decide

/-! ## Claim C9 -/

/-- C9 (amended): each produced feature's name is `buildAirspaceName`
applied to the airspace name and the *sequence's own `seq` field*: the name
is suffixed with the sequence number exactly when the sequence defines one,
regardless of how many sequences the airspace has. -/
theorem claim_C9_feature_names (lib : GeoLib) (cfg : Config) (services : List YaixmService)
    (a : Airspace) (fs : List Feature)
    (h : createAirspaceFeatures lib cfg services a = .ok fs) :
    fs.length = a.geometry.length ∧
    (∀ i f, fs.get? i = some f → ∃ g, a.geometry.get? i = some g ∧
      f.properties.name = buildAirspaceName a.name g.seq) ∧
    (∀ nm : String, buildAirspaceName nm none = nm) ∧
    (∀ (nm : String) (n : ℕ), buildAirspaceName nm (some n) = nm ++ " " ++ toString n) := by
  obtain ⟨hlen, hget⟩ := createAirspaceFeaturesGo_ok lib cfg a.name a.id a.type a.localtype
    a.cls a.rules services a.geometry (some a.name) fs h
  refine ⟨hlen, ?_, fun _ => rfl, fun _ _ => rfl⟩
  intro i f hf
  obtain ⟨g, hg, idt, hp⟩ := hget i f hf
  exact ⟨g, hg,
    (processGeometrySequence_ok_props lib cfg idt a.name a.id a.type a.localtype a.cls
      a.rules services g f hp).1⟩

/-- C9 witness: the single-sequence airspace `alphaAirspace` produces one
feature per sequence; a sequence without a `seq` field keeps the name
unchanged. -/
theorem claim_C9_feature_names_witness :
    alphaFeatures.length = alphaAirspace.geometry.length ∧
    buildAirspaceName "ALPHA" none = "ALPHA" :=
  ⟨(claim_C9_feature_names okLib defaultConfig [] alphaAirspace alphaFeatures
      (by with_unfolding_all rfl)).1,
   (claim_C9_feature_names okLib defaultConfig [] alphaAirspace alphaFeatures
      (by with_unfolding_all rfl)).2.2.1 "ALPHA"⟩

/-- C9 counterexample: `alphaAirspace` has exactly one geometry sequence,
yet its emitted feature name is suffixed with the sequence number (the code
keys the suffix on the presence of the `seq` field, not on the number of
sequences). -/
theorem claim_C9_counterexample :
    (createAirspaceFeatures okLib defaultConfig [] alphaAirspace).map
        (fun fs => fs.map (fun f => f.properties.name)) = .ok ["ALPHA 1"] ∧
    alphaAirspace.geometry.length = 1 ∧
    "ALPHA 1" ≠ alphaAirspace.name := by
  with_unfolding_all decide

/-! ## Claim C10 -/

/-- C10 (confirmed): each produced feature's `activatedByNotam` is `true`
exactly when the effective rules list — the sequence-level rules when
present, otherwise the base rules — contains `NOTAM`; when neither is
present the flag is present and `false`. -/
theorem claim_C10_notam (lib : GeoLib) (cfg : Config) (services : List YaixmService)
    (a : Airspace) (fs : List Feature)
    (h : createAirspaceFeatures lib cfg services a = .ok fs) :
    ∀ i f g, fs.get? i = some f → a.geometry.get? i = some g →
      f.properties.activatedByNotam = notamFlag (effectiveRules g a) := by
  obtain ⟨hlen, hget⟩ := createAirspaceFeaturesGo_ok lib cfg a.name a.id a.type a.localtype
    a.cls a.rules services a.geometry (some a.name) fs h
  intro i f g hf hg
  obtain ⟨g', hg', idt, hp⟩ := hget i f hf
  rw [hg] at hg'
  cases hg'
  exact (processGeometrySequence_ok_props lib cfg idt a.name a.id a.type a.localtype a.cls
    a.rules services g f hp).2

/-- C10 witness: the base rules of `notamAirspace` contain `NOTAM` and its
feature's flag is `true`. -/
theorem claim_C10_notam_witness :
    notamFeature.properties.activatedByNotam = notamFlag (effectiveRules notamSeq
      notamAirspace) ∧
    notamFlag (effectiveRules notamSeq notamAirspace) = true :=
  ⟨claim_C10_notam okLib defaultConfig [] notamAirspace notamFeatures
      (by with_unfolding_all rfl) 0 notamFeature notamSeq (by with_unfolding_all rfl)
      (by with_unfolding_all rfl),
   by with_unfolding_all decide⟩

/-! ### Angle lemmas for the arc tessellation -/

theorem convertAngleTo360_nonneg (a : ℚ) : 0 ≤ convertAngleTo360 a := by
  unfold convertAngleTo360
  have h := Int.floor_le (a / 360)
  have h360 : (0 : ℚ) < 360 := by norm_num
  nlinarith [h]

theorem convertAngleTo360_lt (a : ℚ) : convertAngleTo360 a < 360 := by
  unfold convertAngleTo360
  have h := Int.lt_floor_add_one (a / 360)
  nlinarith [h]

/-- The bearings of a proper (non-full-circle) `lineArc` tessellation advance
strictly monotonically, starting at the normalized start bearing. -/
theorem arcBearings_strict_mono (b1 b2 : ℚ) (steps : ℕ)
    (hne : convertAngleTo360 b1 ≠ convertAngleTo360 b2) :
    List.Chain' (· < ·) (arcBearings b1 b2 steps) ∧
    (arcBearings b1 b2 steps).head? = some (convertAngleTo360 b1) := by
  unfold arcBearings
  rw [if_neg hne]
  set stepsE : ℕ := if steps = 0 then 64 else steps with hsE
  have hsE0 : stepsE ≠ 0 := by
    rw [hsE]
    cases hz : steps with
    | zero => simp
    | succ n => simp
  have hsEq : (0 : ℚ) < (stepsE : ℚ) := by exact_mod_cast Nat.pos_of_ne_zero hsE0
  set angle1 := convertAngleTo360 b1 with ha1
  set angle2 := convertAngleTo360 b2 with ha2
  set arcEnd : ℚ := if angle1 < angle2 then angle2 else angle2 + 360 with harc
  have hlt : angle1 < arcEnd := by
    rw [harc]
    by_cases hc : angle1 < angle2
    · rw [if_pos hc]; exact hc
    · rw [if_neg hc]
      have h1 := convertAngleTo360_lt b1
      have h2 := convertAngleTo360_nonneg b2
      rw [← ha1] at h1
      rw [← ha2] at h2
      linarith
  set val : ℚ := (arcEnd - angle1) * (stepsE : ℚ) / 360 with hval
  have hvalpos : 0 < val := by
    rw [hval]
    have h0 : 0 < arcEnd - angle1 := by linarith
    positivity
  set count : ℕ := (⌈val⌉).toNat with hcount
  have hcount1 : 1 ≤ count := by
    rw [hcount]
    have h1 : (1 : ℤ) ≤ ⌈val⌉ := Int.ceil_pos.mpr hvalpos
    omega
  have hstep : ∀ i : ℕ, i < count → angle1 + ((i : ℚ) * 360) / (stepsE : ℚ) < arcEnd := by
    intro i hi
    have h2 : (i : ℤ) ≤ ⌈val⌉ - 1 := by
      rw [hcount] at hi
      omega
    have h3 : (i : ℚ) < val := by
      have h4 : ((⌈val⌉ : ℚ) - 1) < val := by
        have h5 := Int.ceil_lt_add_one val
        push_cast at h5
        linarith
      have h6 : (i : ℚ) ≤ (⌈val⌉ : ℚ) - 1 := by exact_mod_cast h2
      linarith
    rw [hval] at h3
    have h7 : (i : ℚ) * 360 < (arcEnd - angle1) * (stepsE : ℚ) := by
      rw [lt_div_iff₀ (by norm_num : (0 : ℚ) < 360)] at h3
      linarith
    have h8 : (i : ℚ) * 360 / (stepsE : ℚ) < arcEnd - angle1 := by
      rw [div_lt_iff₀ hsEq]
      linarith [h7]
    linarith
  have hmono : ∀ i j : ℕ, i < j →
      angle1 + ((i : ℚ) * 360) / (stepsE : ℚ) < angle1 + ((j : ℚ) * 360) / (stepsE : ℚ) := by
    intro i j hij
    have hij' : (i : ℚ) < (j : ℚ) := by exact_mod_cast hij
    gcongr
  have hpairw : List.Pairwise (· < ·)
      ((List.range count).map fun (i : ℕ) => angle1 + ((i : ℚ) * 360) / (stepsE : ℚ)) := by
    exact List.Pairwise.map (fun i : ℕ => angle1 + ((i : ℚ) * 360) / (stepsE : ℚ))
      (fun a b hab => hmono a b hab) (List.pairwise_lt_range count)
  have hmemw : ∀ x ∈ (List.range count).map
      fun (i : ℕ) => angle1 + ((i : ℚ) * 360) / (stepsE : ℚ), x < arcEnd := by
    intro x hx
    obtain ⟨j, hj, rfl⟩ := List.mem_map.mp hx
    exact hstep j (List.mem_range.mp hj)
  have hheadw : ((List.range count).map fun (i : ℕ) =>
      angle1 + ((i : ℚ) * 360) / (stepsE : ℚ)).head? = some angle1 := by
    obtain ⟨n, hn⟩ : ∃ n, count = n + 1 := ⟨count - 1, by omega⟩
    rw [hn, List.range_succ_eq_map]
    simp
  have hwne : ((List.range count).map fun (i : ℕ) =>
      angle1 + ((i : ℚ) * 360) / (stepsE : ℚ)) ≠ [] := by
    intro hnil
    rw [hnil] at hheadw
    cases hheadw
  by_cases hover : arcEnd < angle1 + ((count : ℚ) * 360) / (stepsE : ℚ)
  · rw [if_pos hover]
    constructor
    · refine List.Pairwise.chain' (List.pairwise_append.mpr ⟨hpairw, ?_, ?_⟩)
      · simp
      · intro x hx y hy
        simp only [List.mem_singleton] at hy
        subst hy
        exact hmemw x hx
    · rw [head?_append_left _ _ hwne]
      exact hheadw
  · rw [if_neg hover]
    exact ⟨hpairw.chain', hheadw⟩

/-! ## Claim C4 -/

/-- C4 (amended): for a valid arc segment with an accumulated previous
point, direction `cw` resolves to the `lineArc` tessellation between the
centre-to-last-point and centre-to-`to`-point bearings, appended unreversed;
direction `ccw` swaps the two bearing roles and reverses the produced list.
The walked bearings advance strictly monotonically from the normalized start
bearing; the tessellation granularity is `360 / geometryDetail` degrees per
step (default `geometryDetail` is 100), so the number of points covers the
swept span only — it does not equal `geometryDetail` (see the
counterexample). -/
theorem claim_C4_arc_tessellation :
    (∀ (lib : GeoLib) (geometryDetail : ℕ) (identifier sequenceNumber : String)
      (rs cs ts : String) (acc : List Coord) (lastC C T : Coord),
      acc.getLast? = some lastC →
      (matchArcRadiusChars rs.data).isSome = true →
      matchCoordinates cs = true →
      matchCoordinates ts = true →
      transformCoordinates identifier sequenceNumber cs = .ok C →
      transformCoordinates identifier sequenceNumber ts = .ok T →
      createCoordinatesFromArc lib geometryDetail identifier sequenceNumber (some "cw")
          (some rs) (some cs) (some ts) acc =
        .ok ((arcBearings (lib.bearing C lastC) (lib.bearing C T) geometryDetail).map
          (lib.destination C (radiusNmToKm rs))) ∧
      createCoordinatesFromArc lib geometryDetail identifier sequenceNumber (some "ccw")
          (some rs) (some cs) (some ts) acc =
        .ok (((arcBearings (lib.bearing C T) (lib.bearing C lastC) geometryDetail).map
          (lib.destination C (radiusNmToKm rs))).reverse)) ∧
    (∀ (b1 b2 : ℚ) (steps : ℕ), convertAngleTo360 b1 ≠ convertAngleTo360 b2 →
      List.Chain' (· < ·) (arcBearings b1 b2 steps) ∧
      (arcBearings b1 b2 steps).head? = some (convertAngleTo360 b1)) ∧
    (resolveConfig {}).geometryDetail = 100 := by
  refine ⟨?_, arcBearings_strict_mono, rfl⟩
  intro lib geometryDetail identifier sequenceNumber rs cs ts acc lastC C T hlast hrad hcen
    hto hC hT
  constructor
  · unfold createCoordinatesFromArc
    simp only [hlast, hrad, hcen, hto, jsStr, matchArcDir, Option.isNone_some, Bool.or_self,
      Bool.or_false, Bool.false_or, Bool.not_false, Bool.not_true, if_true, if_false]
    norm_num
    simp only [hC, hT, Bind.bind, Except.bind, lineArcCoords]
    rfl
  · unfold createCoordinatesFromArc
    simp only [hlast, hrad, hcen, hto, jsStr, matchArcDir, Option.isNone_some, Bool.or_self,
      Bool.or_false, Bool.false_or, Bool.not_false, Bool.not_true, if_true, if_false]
    norm_num
    simp only [hC, hT, Bind.bind, Except.bind, lineArcCoords]
    rfl

/-- C4 witness: a concrete clockwise arc from bearing 0° to 90° resolved
against the `c4lib` oracles, and the monotone bearing walk for that span. -/
theorem claim_C4_arc_tessellation_witness :
    createCoordinatesFromArc c4lib 100 "A" "0" (some "cw") (some "10 NM")
        (some "000000N 0000000E") (some "000000N 0010000E") [(0, 1)] =
      .ok ((arcBearings (c4lib.bearing (0, 0) (0, 1)) (c4lib.bearing (0, 0) (1, 0)) 100).map
        (c4lib.destination (0, 0) (radiusNmToKm "10 NM"))) ∧
    List.Chain' (· < ·) (arcBearings 0 90 100) :=
  ⟨(claim_C4_arc_tessellation.1 c4lib 100 "A" "0" "10 NM" "000000N 0000000E"
      "000000N 0010000E" [(0, 1)] (0, 1) (0, 0) (1, 0) (by with_unfolding_all decide)
      (by with_unfolding_all decide) (by with_unfolding_all decide)
      (by with_unfolding_all decide) (by with_unfolding_all decide)
      (by with_unfolding_all decide)).1,
   (claim_C4_arc_tessellation.2.1 0 90 100 (by with_unfolding_all decide)).1⟩

/-- C4 counterexample: with `geometryDetail = 100`, the 90°-span arc is
tessellated into 25 points (one per 3.6° of the full circle), not into the
configured number of steps. -/
theorem claim_C4_counterexample :
    (createCoordinatesFromArc c4lib 100 "A" "0" (some "cw") (some "10 NM")
        (some "000000N 0000000E") (some "000000N 0010000E") [(0, 1)]).map List.length =
      .ok 25 ∧
    (resolveConfig {}).geometryDetail = 100 ∧
    (25 : ℕ) ≠ 100 ∧ (25 : ℕ) ≠ 101 := by
  with_unfolding_all decide
